import Mathlib

/-!
Shallow embedding of the NES emulator core (`NESEmulator/cpu.py`,
`NESEmulator/ppu.py`, `NESEmulator/rom.py`) from the repository
`davecom/ComputerScienceFromScratch`.

Modelling conventions:
* Python `int` values that are provably non-negative are `Nat`; values that can
  go negative (subtraction results, `~x`) are `Int`.
* Python `x & (2^k - 1)` masks are written `x % 2^k` (on `Int`, `%` is `emod`,
  which agrees with Python's `%` for positive moduli); masks that are not of the
  form `2^k - 1` (such as `& 0xFF00`, `& 0x80`, `& 0xF0`) keep the bitwise
  operators.  Python bitwise on possibly-negative ints is `Int.land` / `Int.xor`
  / `Int.lnot` (mathematical two's complement, matching Python).
* Byte stores (`array('B')`, `bytes`) that the code only ever indexes through a
  mask are total functions `Nat → Nat`; read-only `bytes` objects that can be
  indexed out of range (`prg_rom`, `chr_rom`) are `List Nat` accessed with
  `List.get?` so that a Python `IndexError` is `none`.
* Exceptions and Python functions that fall off the end (returning `None`) are
  both modelled with `Option`: a `none` result of `step`/`read_register`/... is
  a failure of the Python code to return a byte normally.
-/

/-- Python arithmetic on `bool` treats `True` as 1 and `False` as 0. -/
def boolNat (b : Bool) : Nat := if b then 1 else 0

/-- Pointwise update of a functional byte store, `f[i] = v`. -/
def updFn (f : Nat → Nat) (i v : Nat) : Nat → Nat := fun j => if j = i then v else f j

/-! ## ppu.py -/

def SPR_RAM_SIZE : Nat := 256
def NAMETABLE_SIZE : Nat := 2048
def PALETTE_SIZE : Nat := 32

/-- State of `class PPU` (ppu.py).  `buffer2007` is an `Option` because
`PPU.read_memory` is a stub (`pass`) that returns Python `None`, which the
`0x2007` register read stores into the buffer. -/
structure PPU where
  spr : Nat → Nat
  nametables : Nat → Nat
  palette : Nat → Nat
  addr : Nat
  addr_write_latch : Bool
  status : Nat
  spr_address : Nat
  nametable_address : Nat
  address_increment : Nat
  spr_pattern_table_address : Nat
  background_pattern_table_address : Nat
  generate_nmi : Bool
  show_background : Bool
  show_sprites : Bool
  left_8_sprite_show : Bool
  left_8_background_show : Bool
  buffer2007 : Option Nat

/-- `PPU.read_memory` in ppu.py has body `pass`: it always returns `None`. -/
def PPU.ppu_read_memory (_ : PPU) (_ : Nat) : Option Nat := none

/-- `PPU.write_memory` in ppu.py has body `pass`: it does nothing. -/
def PPU.ppu_write_memory (p : PPU) (_ : Nat) (_ : Nat) : PPU := p

/-- `PPU.read_register` (ppu.py lines 47-65).  Returns the read byte and the
updated PPU.  The final `else` branch of the Python prints an error and returns
`None`, hence `(none, p)`.  Reading `0x2004` indexes `self.spr[self.spr_address]`
directly: an index outside the 256-byte table raises `IndexError` (`none`). -/
def PPU.read_register (p : PPU) (address : Nat) : Option Nat × PPU :=
  if address = 0x2002 then
    let current := p.status
    (some current, { p with addr_write_latch := false, status := p.status &&& 0b01111111 })
  else if address = 0x2004 then
    if p.spr_address < SPR_RAM_SIZE then (some (p.spr p.spr_address), p) else (none, p)
  else if address = 0x2007 then
    if p.addr % 0x4000 < 0x3F00 then
      let value := p.buffer2007
      let p := { p with buffer2007 := p.ppu_read_memory p.addr }
      (value, { p with addr := p.addr + p.address_increment })
    else
      let value := p.ppu_read_memory p.addr
      let p := { p with buffer2007 := p.ppu_read_memory (p.addr - 0x1000) }
      (value, { p with addr := p.addr + p.address_increment })
  else (none, p)

/-- `PPU.write_register` (ppu.py lines 67-96).  Writing `0x2004` indexes
`self.spr[self.spr_address]`, raising `IndexError` (`none`) when the OAM
address is outside the 256-byte table.  The final `else` branch only prints. -/
def PPU.write_register (p : PPU) (address value : Nat) : Option PPU :=
  if address = 0x2000 then
    some { p with
      nametable_address := 0x2000 + (value % 0b100) * 0x400,
      address_increment := if value &&& 0b00000100 != 0 then 32 else 1,
      spr_pattern_table_address := ((value &&& 0b00001000) >>> 3) * 0x1000,
      background_pattern_table_address := ((value &&& 0b00010000) >>> 4) * 0x1000,
      generate_nmi := value &&& 0b10000000 != 0 }
  else if address = 0x2001 then
    some { p with
      show_background := value &&& 0b00001000 != 0,
      show_sprites := value &&& 0b00010000 != 0,
      left_8_background_show := value &&& 0b00000010 != 0,
      left_8_sprite_show := value &&& 0b00000100 != 0 }
  else if address = 0x2003 then
    some { p with spr_address := value }
  else if address = 0x2004 then
    if p.spr_address < SPR_RAM_SIZE then
      some { p with spr := updFn p.spr p.spr_address value, spr_address := p.spr_address + 1 }
    else none
  else if address = 0x2005 then
    some p
  else if address = 0x2006 then
    if !p.addr_write_latch then
      some { p with addr := (p.addr % 0x100) ||| ((value % 0x100) <<< 8),
                    addr_write_latch := !p.addr_write_latch }
    else
      some { p with addr := (p.addr &&& 0xFF00) ||| (value % 0x100),
                    addr_write_latch := !p.addr_write_latch }
  else if address = 0x2007 then
    let p := p.ppu_write_memory p.addr value
    some { p with addr := p.addr + p.address_increment }
  else some p

/-! ## rom.py -/

def HEADER_SIZE : Nat := 16
def TRAINER_SIZE : Nat := 512
def PRG_ROM_BASE_UNIT_SIZE : Nat := 16384
def CHR_ROM_BASE_UNIT_SIZE : Nat := 8192
def PRG_RAM_SIZE : Nat := 8192

/-- The `Header` namedtuple of rom.py, fields unpacked with format `!LBBBBBBB5s`. -/
structure Header where
  signature : Nat
  prg_rom_size : Nat
  chr_rom_size : Nat
  flags6 : Nat
  flags7 : Nat
  flags8 : Nat
  flags9 : Nat
  flags10 : Nat
  unused : List Nat

/-- State of `class ROM` (rom.py). -/
structure ROM where
  header : Header
  mapper : Nat
  has_trainer : Bool
  trainer_data : Option (List Nat)
  vertical_mirroring : Bool
  prg_rom : List Nat
  chr_rom : List Nat
  prg_ram : Nat → Nat

/-- Diagnostics printed by `ROM.__init__`; each constructor corresponds to one
`print` call in rom.py lines 33-50. -/
inductive Diag where
  | invalidSignature
  | validSignature
  | mapperReport (mapper : Nat)
  | invalidMapper
  | mirroringReport (vertical : Bool)
deriving DecidableEq

/-- `ROM.read_mapper0` (rom.py lines 56-67).  `bytes` indexing out of range and
the explicit `raise LookupError` both give `none`. -/
def ROM.read_mapper0 (rom : ROM) (address : Nat) : Option Nat :=
  if address < 0x2000 then rom.chr_rom.get? address
  else if 0x6000 ≤ address ∧ address < 0x8000 then
    some (rom.prg_ram (address % PRG_RAM_SIZE))
  else if 0x8000 ≤ address then
    if rom.header.prg_rom_size > 1 then rom.prg_rom.get? (address - 0x8000)
    else rom.prg_rom.get? ((address - 0x8000) % PRG_ROM_BASE_UNIT_SIZE)
  else none

/-- `ROM.write_mapper0` (rom.py lines 69-71). -/
def ROM.write_mapper0 (rom : ROM) (address value : Nat) : ROM :=
  if 0x6000 ≤ address then
    { rom with prg_ram := updFn rom.prg_ram (address % PRG_RAM_SIZE) value }
  else rom

/-- `self.read_cartridge = self.read_mapper0` (rom.py line 42). -/
def ROM.read_cartridge : ROM → Nat → Option Nat := ROM.read_mapper0

/-- `self.write_cartridge = self.write_mapper0` (rom.py line 43). -/
def ROM.write_cartridge : ROM → Nat → Nat → ROM := ROM.write_mapper0

/-- `ROM.__init__` (rom.py lines 29-54) on the byte contents of the file.
`struct.unpack` raises unless the file holds a full 16-byte header (`none`);
every later `file.read` just returns the bytes that are left.  Note that in the
source the signature check only selects which diagnostic is printed: parsing
continues unconditionally after the `if`/`else`. -/
def ROM.init (file : List Nat) : Option (ROM × List Diag) :=
  if file.length < HEADER_SIZE then none
  else
    let signature := ((file.getD 0 0) <<< 24) ||| ((file.getD 1 0) <<< 16) |||
                     ((file.getD 2 0) <<< 8) ||| (file.getD 3 0)
    let prg_rom_size := file.getD 4 0
    let chr_rom_size := file.getD 5 0
    let flags6 := file.getD 6 0
    let flags7 := file.getD 7 0
    let flags8 := file.getD 8 0
    let flags9 := file.getD 9 0
    let flags10 := file.getD 10 0
    let unused := (file.drop 11).take 5
    let d1 := if signature ≠ 0x4E45531A then [Diag.invalidSignature] else [Diag.validSignature]
    let mapper := (flags7 &&& 0xF0) ||| ((flags6 &&& 0xF0) >>> 4)
    let d2 := [Diag.mapperReport mapper]
    let d3 := if mapper ≠ 0 then [Diag.invalidMapper] else []
    let has_trainer : Bool := flags6 &&& 4 != 0
    let trainer_data := if has_trainer then some ((file.drop HEADER_SIZE).take TRAINER_SIZE)
                        else none
    let vertical_mirroring : Bool := flags6 % 2 != 0
    let d4 := [Diag.mirroringReport vertical_mirroring]
    let off := HEADER_SIZE + (if has_trainer then TRAINER_SIZE else 0)
    let prg_rom := (file.drop off).take (PRG_ROM_BASE_UNIT_SIZE * prg_rom_size)
    let chr_rom := (file.drop (off + PRG_ROM_BASE_UNIT_SIZE * prg_rom_size)).take
                     (CHR_ROM_BASE_UNIT_SIZE * chr_rom_size)
    some ({ header := ⟨signature, prg_rom_size, chr_rom_size, flags6, flags7, flags8,
                       flags9, flags10, unused⟩,
            mapper, has_trainer, trainer_data, vertical_mirroring, prg_rom, chr_rom,
            prg_ram := fun _ => 0 }, d1 ++ d2 ++ d3 ++ d4)

/-! ## cpu.py : instruction table -/

/-- The `MemMode` enum (cpu.py lines 22-24). -/
inductive MemMode where
  | DUMMY | ABSOLUTE | ABSOLUTE_X | ABSOLUTE_Y | ACCUMULATOR | IMMEDIATE
  | IMPLIED | INDEXED_INDIRECT | INDIRECT | INDIRECT_INDEXED | RELATIVE
  | ZEROPAGE | ZEROPAGE_X | ZEROPAGE_Y
deriving DecidableEq

/-- The `InstructionType` enum (cpu.py lines 27-33). -/
inductive InstructionType where
  | ADC | AHX | ALR | ANC | AND | ARR | ASL | AXS | BCC | BCS | BEQ | BIT
  | BMI | BNE | BPL | BRK | BVC | BVS | CLC | CLD | CLI | CLV | CMP | CPX
  | CPY | DCP | DEC | DEX | DEY | EOR | INC | INX | INY | ISC | JMP | JSR
  | KIL | LAS | LAX | LDA | LDX | LDY | LSR | NOP | ORA | PHA | PHP | PLA
  | PLP | RLA | ROL | ROR | RRA | RTI | RTS | SAX | SBC | SEC | SED | SEI
  | SHX | SHY | SLO | SRE | STA | STX | STY | TAS | TAX | TAY | TSX | TXA
  | TXS | TYA | XAA
deriving DecidableEq

/-- The `Instruction` dataclass (cpu.py lines 36-42). -/
structure Instruction where
  type : InstructionType
  mode : MemMode
  length : Nat
  ticks : Nat
  page_ticks : Nat
deriving DecidableEq

/-- The `Joypad` dataclass (cpu.py lines 45-56). -/
structure Joypad where
  strobe : Bool
  read_count : Nat
  a : Bool
  b : Bool
  select : Bool
  start : Bool
  up : Bool
  down : Bool
  left : Bool
  right : Bool

/-- Rows 0x00-0x1f of the opcode table. -/
def InstructionRows0 : List Instruction := [
  ⟨.BRK, .IMPLIED, 1, 7, 0⟩,  -- 00
  ⟨.ORA, .INDEXED_INDIRECT, 2, 6, 0⟩,  -- 01
  ⟨.KIL, .IMPLIED, 0, 2, 0⟩,  -- 02
  ⟨.SLO, .INDEXED_INDIRECT, 0, 8, 0⟩,  -- 03
  ⟨.NOP, .ZEROPAGE, 2, 3, 0⟩,  -- 04
  ⟨.ORA, .ZEROPAGE, 2, 3, 0⟩,  -- 05
  ⟨.ASL, .ZEROPAGE, 2, 5, 0⟩,  -- 06
  ⟨.SLO, .ZEROPAGE, 0, 5, 0⟩,  -- 07
  ⟨.PHP, .IMPLIED, 1, 3, 0⟩,  -- 08
  ⟨.ORA, .IMMEDIATE, 2, 2, 0⟩,  -- 09
  ⟨.ASL, .ACCUMULATOR, 1, 2, 0⟩,  -- 0a
  ⟨.ANC, .IMMEDIATE, 0, 2, 0⟩,  -- 0b
  ⟨.NOP, .ABSOLUTE, 3, 4, 0⟩,  -- 0c
  ⟨.ORA, .ABSOLUTE, 3, 4, 0⟩,  -- 0d
  ⟨.ASL, .ABSOLUTE, 3, 6, 0⟩,  -- 0e
  ⟨.SLO, .ABSOLUTE, 0, 6, 0⟩,  -- 0f
  ⟨.BPL, .RELATIVE, 2, 2, 1⟩,  -- 10
  ⟨.ORA, .INDIRECT_INDEXED, 2, 5, 1⟩,  -- 11
  ⟨.KIL, .IMPLIED, 0, 2, 0⟩,  -- 12
  ⟨.SLO, .INDIRECT_INDEXED, 0, 8, 0⟩,  -- 13
  ⟨.NOP, .ZEROPAGE_X, 2, 4, 0⟩,  -- 14
  ⟨.ORA, .ZEROPAGE_X, 2, 4, 0⟩,  -- 15
  ⟨.ASL, .ZEROPAGE_X, 2, 6, 0⟩,  -- 16
  ⟨.SLO, .ZEROPAGE_X, 0, 6, 0⟩,  -- 17
  ⟨.CLC, .IMPLIED, 1, 2, 0⟩,  -- 18
  ⟨.ORA, .ABSOLUTE_Y, 3, 4, 1⟩,  -- 19
  ⟨.NOP, .IMPLIED, 1, 2, 0⟩,  -- 1a
  ⟨.SLO, .ABSOLUTE_Y, 0, 7, 0⟩,  -- 1b
  ⟨.NOP, .ABSOLUTE_X, 3, 4, 1⟩,  -- 1c
  ⟨.ORA, .ABSOLUTE_X, 3, 4, 1⟩,  -- 1d
  ⟨.ASL, .ABSOLUTE_X, 3, 7, 0⟩,  -- 1e
  ⟨.SLO, .ABSOLUTE_X, 0, 7, 0⟩,  -- 1f
]

/-- Rows 0x20-0x3f of the opcode table. -/
def InstructionRows1 : List Instruction := [
  ⟨.JSR, .ABSOLUTE, 3, 6, 0⟩,  -- 20
  ⟨.AND, .INDEXED_INDIRECT, 2, 6, 0⟩,  -- 21
  ⟨.KIL, .IMPLIED, 0, 2, 0⟩,  -- 22
  ⟨.RLA, .INDEXED_INDIRECT, 0, 8, 0⟩,  -- 23
  ⟨.BIT, .ZEROPAGE, 2, 3, 0⟩,  -- 24
  ⟨.AND, .ZEROPAGE, 2, 3, 0⟩,  -- 25
  ⟨.ROL, .ZEROPAGE, 2, 5, 0⟩,  -- 26
  ⟨.RLA, .ZEROPAGE, 0, 5, 0⟩,  -- 27
  ⟨.PLP, .IMPLIED, 1, 4, 0⟩,  -- 28
  ⟨.AND, .IMMEDIATE, 2, 2, 0⟩,  -- 29
  ⟨.ROL, .ACCUMULATOR, 1, 2, 0⟩,  -- 2a
  ⟨.ANC, .IMMEDIATE, 0, 2, 0⟩,  -- 2b
  ⟨.BIT, .ABSOLUTE, 3, 4, 0⟩,  -- 2c
  ⟨.AND, .ABSOLUTE, 3, 4, 0⟩,  -- 2d
  ⟨.ROL, .ABSOLUTE, 3, 6, 0⟩,  -- 2e
  ⟨.RLA, .ABSOLUTE, 0, 6, 0⟩,  -- 2f
  ⟨.BMI, .RELATIVE, 2, 2, 1⟩,  -- 30
  ⟨.AND, .INDIRECT_INDEXED, 2, 5, 1⟩,  -- 31
  ⟨.KIL, .IMPLIED, 0, 2, 0⟩,  -- 32
  ⟨.RLA, .INDIRECT_INDEXED, 0, 8, 0⟩,  -- 33
  ⟨.NOP, .ZEROPAGE_X, 2, 4, 0⟩,  -- 34
  ⟨.AND, .ZEROPAGE_X, 2, 4, 0⟩,  -- 35
  ⟨.ROL, .ZEROPAGE_X, 2, 6, 0⟩,  -- 36
  ⟨.RLA, .ZEROPAGE_X, 0, 6, 0⟩,  -- 37
  ⟨.SEC, .IMPLIED, 1, 2, 0⟩,  -- 38
  ⟨.AND, .ABSOLUTE_Y, 3, 4, 1⟩,  -- 39
  ⟨.NOP, .IMPLIED, 1, 2, 0⟩,  -- 3a
  ⟨.RLA, .ABSOLUTE_Y, 0, 7, 0⟩,  -- 3b
  ⟨.NOP, .ABSOLUTE_X, 3, 4, 1⟩,  -- 3c
  ⟨.AND, .ABSOLUTE_X, 3, 4, 1⟩,  -- 3d
  ⟨.ROL, .ABSOLUTE_X, 3, 7, 0⟩,  -- 3e
  ⟨.RLA, .ABSOLUTE_X, 0, 7, 0⟩,  -- 3f
]

/-- Rows 0x40-0x5f of the opcode table. -/
def InstructionRows2 : List Instruction := [
  ⟨.RTI, .IMPLIED, 1, 6, 0⟩,  -- 40
  ⟨.EOR, .INDEXED_INDIRECT, 2, 6, 0⟩,  -- 41
  ⟨.KIL, .IMPLIED, 0, 2, 0⟩,  -- 42
  ⟨.SRE, .INDEXED_INDIRECT, 0, 8, 0⟩,  -- 43
  ⟨.NOP, .ZEROPAGE, 2, 3, 0⟩,  -- 44
  ⟨.EOR, .ZEROPAGE, 2, 3, 0⟩,  -- 45
  ⟨.LSR, .ZEROPAGE, 2, 5, 0⟩,  -- 46
  ⟨.SRE, .ZEROPAGE, 0, 5, 0⟩,  -- 47
  ⟨.PHA, .IMPLIED, 1, 3, 0⟩,  -- 48
  ⟨.EOR, .IMMEDIATE, 2, 2, 0⟩,  -- 49
  ⟨.LSR, .ACCUMULATOR, 1, 2, 0⟩,  -- 4a
  ⟨.ALR, .IMMEDIATE, 0, 2, 0⟩,  -- 4b
  ⟨.JMP, .ABSOLUTE, 3, 3, 0⟩,  -- 4c
  ⟨.EOR, .ABSOLUTE, 3, 4, 0⟩,  -- 4d
  ⟨.LSR, .ABSOLUTE, 3, 6, 0⟩,  -- 4e
  ⟨.SRE, .ABSOLUTE, 0, 6, 0⟩,  -- 4f
  ⟨.BVC, .RELATIVE, 2, 2, 1⟩,  -- 50
  ⟨.EOR, .INDIRECT_INDEXED, 2, 5, 1⟩,  -- 51
  ⟨.KIL, .IMPLIED, 0, 2, 0⟩,  -- 52
  ⟨.SRE, .INDIRECT_INDEXED, 0, 8, 0⟩,  -- 53
  ⟨.NOP, .ZEROPAGE_X, 2, 4, 0⟩,  -- 54
  ⟨.EOR, .ZEROPAGE_X, 2, 4, 0⟩,  -- 55
  ⟨.LSR, .ZEROPAGE_X, 2, 6, 0⟩,  -- 56
  ⟨.SRE, .ZEROPAGE_X, 0, 6, 0⟩,  -- 57
  ⟨.CLI, .IMPLIED, 1, 2, 0⟩,  -- 58
  ⟨.EOR, .ABSOLUTE_Y, 3, 4, 1⟩,  -- 59
  ⟨.NOP, .IMPLIED, 1, 2, 0⟩,  -- 5a
  ⟨.SRE, .ABSOLUTE_Y, 0, 7, 0⟩,  -- 5b
  ⟨.NOP, .ABSOLUTE_X, 3, 4, 1⟩,  -- 5c
  ⟨.EOR, .ABSOLUTE_X, 3, 4, 1⟩,  -- 5d
  ⟨.LSR, .ABSOLUTE_X, 3, 7, 0⟩,  -- 5e
  ⟨.SRE, .ABSOLUTE_X, 0, 7, 0⟩,  -- 5f
]

/-- Rows 0x60-0x7f of the opcode table. -/
def InstructionRows3 : List Instruction := [
  ⟨.RTS, .IMPLIED, 1, 6, 0⟩,  -- 60
  ⟨.ADC, .INDEXED_INDIRECT, 2, 6, 0⟩,  -- 61
  ⟨.KIL, .IMPLIED, 0, 2, 0⟩,  -- 62
  ⟨.RRA, .INDEXED_INDIRECT, 0, 8, 0⟩,  -- 63
  ⟨.NOP, .ZEROPAGE, 2, 3, 0⟩,  -- 64
  ⟨.ADC, .ZEROPAGE, 2, 3, 0⟩,  -- 65
  ⟨.ROR, .ZEROPAGE, 2, 5, 0⟩,  -- 66
  ⟨.RRA, .ZEROPAGE, 0, 5, 0⟩,  -- 67
  ⟨.PLA, .IMPLIED, 1, 4, 0⟩,  -- 68
  ⟨.ADC, .IMMEDIATE, 2, 2, 0⟩,  -- 69
  ⟨.ROR, .ACCUMULATOR, 1, 2, 0⟩,  -- 6a
  ⟨.ARR, .IMMEDIATE, 0, 2, 0⟩,  -- 6b
  ⟨.JMP, .INDIRECT, 3, 5, 0⟩,  -- 6c
  ⟨.ADC, .ABSOLUTE, 3, 4, 0⟩,  -- 6d
  ⟨.ROR, .ABSOLUTE, 3, 6, 0⟩,  -- 6e
  ⟨.RRA, .ABSOLUTE, 0, 6, 0⟩,  -- 6f
  ⟨.BVS, .RELATIVE, 2, 2, 1⟩,  -- 70
  ⟨.ADC, .INDIRECT_INDEXED, 2, 5, 1⟩,  -- 71
  ⟨.KIL, .IMPLIED, 0, 2, 0⟩,  -- 72
  ⟨.RRA, .INDIRECT_INDEXED, 0, 8, 0⟩,  -- 73
  ⟨.NOP, .ZEROPAGE_X, 2, 4, 0⟩,  -- 74
  ⟨.ADC, .ZEROPAGE_X, 2, 4, 0⟩,  -- 75
  ⟨.ROR, .ZEROPAGE_X, 2, 6, 0⟩,  -- 76
  ⟨.RRA, .ZEROPAGE_X, 0, 6, 0⟩,  -- 77
  ⟨.SEI, .IMPLIED, 1, 2, 0⟩,  -- 78
  ⟨.ADC, .ABSOLUTE_Y, 3, 4, 1⟩,  -- 79
  ⟨.NOP, .IMPLIED, 1, 2, 0⟩,  -- 7a
  ⟨.RRA, .ABSOLUTE_Y, 0, 7, 0⟩,  -- 7b
  ⟨.NOP, .ABSOLUTE_X, 3, 4, 1⟩,  -- 7c
  ⟨.ADC, .ABSOLUTE_X, 3, 4, 1⟩,  -- 7d
  ⟨.ROR, .ABSOLUTE_X, 3, 7, 0⟩,  -- 7e
  ⟨.RRA, .ABSOLUTE_X, 0, 7, 0⟩,  -- 7f
]

/-- Rows 0x80-0x9f of the opcode table. -/
def InstructionRows4 : List Instruction := [
  ⟨.NOP, .IMMEDIATE, 2, 2, 0⟩,  -- 80
  ⟨.STA, .INDEXED_INDIRECT, 2, 6, 0⟩,  -- 81
  ⟨.NOP, .IMMEDIATE, 0, 2, 0⟩,  -- 82
  ⟨.SAX, .INDEXED_INDIRECT, 0, 6, 0⟩,  -- 83
  ⟨.STY, .ZEROPAGE, 2, 3, 0⟩,  -- 84
  ⟨.STA, .ZEROPAGE, 2, 3, 0⟩,  -- 85
  ⟨.STX, .ZEROPAGE, 2, 3, 0⟩,  -- 86
  ⟨.SAX, .ZEROPAGE, 0, 3, 0⟩,  -- 87
  ⟨.DEY, .IMPLIED, 1, 2, 0⟩,  -- 88
  ⟨.NOP, .IMMEDIATE, 0, 2, 0⟩,  -- 89
  ⟨.TXA, .IMPLIED, 1, 2, 0⟩,  -- 8a
  ⟨.XAA, .IMMEDIATE, 0, 2, 0⟩,  -- 8b
  ⟨.STY, .ABSOLUTE, 3, 4, 0⟩,  -- 8c
  ⟨.STA, .ABSOLUTE, 3, 4, 0⟩,  -- 8d
  ⟨.STX, .ABSOLUTE, 3, 4, 0⟩,  -- 8e
  ⟨.SAX, .ABSOLUTE, 0, 4, 0⟩,  -- 8f
  ⟨.BCC, .RELATIVE, 2, 2, 1⟩,  -- 90
  ⟨.STA, .INDIRECT_INDEXED, 2, 6, 0⟩,  -- 91
  ⟨.KIL, .IMPLIED, 0, 2, 0⟩,  -- 92
  ⟨.AHX, .INDIRECT_INDEXED, 0, 6, 0⟩,  -- 93
  ⟨.STY, .ZEROPAGE_X, 2, 4, 0⟩,  -- 94
  ⟨.STA, .ZEROPAGE_X, 2, 4, 0⟩,  -- 95
  ⟨.STX, .ZEROPAGE_Y, 2, 4, 0⟩,  -- 96
  ⟨.SAX, .ZEROPAGE_Y, 0, 4, 0⟩,  -- 97
  ⟨.TYA, .IMPLIED, 1, 2, 0⟩,  -- 98
  ⟨.STA, .ABSOLUTE_Y, 3, 5, 0⟩,  -- 99
  ⟨.TXS, .IMPLIED, 1, 2, 0⟩,  -- 9a
  ⟨.TAS, .ABSOLUTE_Y, 0, 5, 0⟩,  -- 9b
  ⟨.SHY, .ABSOLUTE_X, 0, 5, 0⟩,  -- 9c
  ⟨.STA, .ABSOLUTE_X, 3, 5, 0⟩,  -- 9d
  ⟨.SHX, .ABSOLUTE_Y, 0, 5, 0⟩,  -- 9e
  ⟨.AHX, .ABSOLUTE_Y, 0, 5, 0⟩,  -- 9f
]

/-- Rows 0xa0-0xbf of the opcode table. -/
def InstructionRows5 : List Instruction := [
  ⟨.LDY, .IMMEDIATE, 2, 2, 0⟩,  -- a0
  ⟨.LDA, .INDEXED_INDIRECT, 2, 6, 0⟩,  -- a1
  ⟨.LDX, .IMMEDIATE, 2, 2, 0⟩,  -- a2
  ⟨.LAX, .INDEXED_INDIRECT, 0, 6, 0⟩,  -- a3
  ⟨.LDY, .ZEROPAGE, 2, 3, 0⟩,  -- a4
  ⟨.LDA, .ZEROPAGE, 2, 3, 0⟩,  -- a5
  ⟨.LDX, .ZEROPAGE, 2, 3, 0⟩,  -- a6
  ⟨.LAX, .ZEROPAGE, 0, 3, 0⟩,  -- a7
  ⟨.TAY, .IMPLIED, 1, 2, 0⟩,  -- a8
  ⟨.LDA, .IMMEDIATE, 2, 2, 0⟩,  -- a9
  ⟨.TAX, .IMPLIED, 1, 2, 0⟩,  -- aa
  ⟨.LAX, .IMMEDIATE, 0, 2, 0⟩,  -- ab
  ⟨.LDY, .ABSOLUTE, 3, 4, 0⟩,  -- ac
  ⟨.LDA, .ABSOLUTE, 3, 4, 0⟩,  -- ad
  ⟨.LDX, .ABSOLUTE, 3, 4, 0⟩,  -- ae
  ⟨.LAX, .ABSOLUTE, 0, 4, 0⟩,  -- af
  ⟨.BCS, .RELATIVE, 2, 2, 1⟩,  -- b0
  ⟨.LDA, .INDIRECT_INDEXED, 2, 5, 1⟩,  -- b1
  ⟨.KIL, .IMPLIED, 0, 2, 0⟩,  -- b2
  ⟨.LAX, .INDIRECT_INDEXED, 0, 5, 1⟩,  -- b3
  ⟨.LDY, .ZEROPAGE_X, 2, 4, 0⟩,  -- b4
  ⟨.LDA, .ZEROPAGE_X, 2, 4, 0⟩,  -- b5
  ⟨.LDX, .ZEROPAGE_Y, 2, 4, 0⟩,  -- b6
  ⟨.LAX, .ZEROPAGE_Y, 0, 4, 0⟩,  -- b7
  ⟨.CLV, .IMPLIED, 1, 2, 0⟩,  -- b8
  ⟨.LDA, .ABSOLUTE_Y, 3, 4, 1⟩,  -- b9
  ⟨.TSX, .IMPLIED, 1, 2, 0⟩,  -- ba
  ⟨.LAS, .ABSOLUTE_Y, 0, 4, 1⟩,  -- bb
  ⟨.LDY, .ABSOLUTE_X, 3, 4, 1⟩,  -- bc
  ⟨.LDA, .ABSOLUTE_X, 3, 4, 1⟩,  -- bd
  ⟨.LDX, .ABSOLUTE_Y, 3, 4, 1⟩,  -- be
  ⟨.LAX, .ABSOLUTE_Y, 0, 4, 1⟩,  -- bf
]

/-- Rows 0xc0-0xdf of the opcode table. -/
def InstructionRows6 : List Instruction := [
  ⟨.CPY, .IMMEDIATE, 2, 2, 0⟩,  -- c0
  ⟨.CMP, .INDEXED_INDIRECT, 2, 6, 0⟩,  -- c1
  ⟨.NOP, .IMMEDIATE, 0, 2, 0⟩,  -- c2
  ⟨.DCP, .INDEXED_INDIRECT, 0, 8, 0⟩,  -- c3
  ⟨.CPY, .ZEROPAGE, 2, 3, 0⟩,  -- c4
  ⟨.CMP, .ZEROPAGE, 2, 3, 0⟩,  -- c5
  ⟨.DEC, .ZEROPAGE, 2, 5, 0⟩,  -- c6
  ⟨.DCP, .ZEROPAGE, 0, 5, 0⟩,  -- c7
  ⟨.INY, .IMPLIED, 1, 2, 0⟩,  -- c8
  ⟨.CMP, .IMMEDIATE, 2, 2, 0⟩,  -- c9
  ⟨.DEX, .IMPLIED, 1, 2, 0⟩,  -- ca
  ⟨.AXS, .IMMEDIATE, 0, 2, 0⟩,  -- cb
  ⟨.CPY, .ABSOLUTE, 3, 4, 0⟩,  -- cc
  ⟨.CMP, .ABSOLUTE, 3, 4, 0⟩,  -- cd
  ⟨.DEC, .ABSOLUTE, 3, 6, 0⟩,  -- ce
  ⟨.DCP, .ABSOLUTE, 0, 6, 0⟩,  -- cf
  ⟨.BNE, .RELATIVE, 2, 2, 1⟩,  -- d0
  ⟨.CMP, .INDIRECT_INDEXED, 2, 5, 1⟩,  -- d1
  ⟨.KIL, .IMPLIED, 0, 2, 0⟩,  -- d2
  ⟨.DCP, .INDIRECT_INDEXED, 0, 8, 0⟩,  -- d3
  ⟨.NOP, .ZEROPAGE_X, 2, 4, 0⟩,  -- d4
  ⟨.CMP, .ZEROPAGE_X, 2, 4, 0⟩,  -- d5
  ⟨.DEC, .ZEROPAGE_X, 2, 6, 0⟩,  -- d6
  ⟨.DCP, .ZEROPAGE_X, 0, 6, 0⟩,  -- d7
  ⟨.CLD, .IMPLIED, 1, 2, 0⟩,  -- d8
  ⟨.CMP, .ABSOLUTE_Y, 3, 4, 1⟩,  -- d9
  ⟨.NOP, .IMPLIED, 1, 2, 0⟩,  -- da
  ⟨.DCP, .ABSOLUTE_Y, 0, 7, 0⟩,  -- db
  ⟨.NOP, .ABSOLUTE_X, 3, 4, 1⟩,  -- dc
  ⟨.CMP, .ABSOLUTE_X, 3, 4, 1⟩,  -- dd
  ⟨.DEC, .ABSOLUTE_X, 3, 7, 0⟩,  -- de
  ⟨.DCP, .ABSOLUTE_X, 0, 7, 0⟩,  -- df
]

/-- Rows 0xe0-0xff of the opcode table. -/
def InstructionRows7 : List Instruction := [
  ⟨.CPX, .IMMEDIATE, 2, 2, 0⟩,  -- e0
  ⟨.SBC, .INDEXED_INDIRECT, 2, 6, 0⟩,  -- e1
  ⟨.NOP, .IMMEDIATE, 0, 2, 0⟩,  -- e2
  ⟨.ISC, .INDEXED_INDIRECT, 0, 8, 0⟩,  -- e3
  ⟨.CPX, .ZEROPAGE, 2, 3, 0⟩,  -- e4
  ⟨.SBC, .ZEROPAGE, 2, 3, 0⟩,  -- e5
  ⟨.INC, .ZEROPAGE, 2, 5, 0⟩,  -- e6
  ⟨.ISC, .ZEROPAGE, 0, 5, 0⟩,  -- e7
  ⟨.INX, .IMPLIED, 1, 2, 0⟩,  -- e8
  ⟨.SBC, .IMMEDIATE, 2, 2, 0⟩,  -- e9
  ⟨.NOP, .IMPLIED, 1, 2, 0⟩,  -- ea
  ⟨.SBC, .IMMEDIATE, 0, 2, 0⟩,  -- eb
  ⟨.CPX, .ABSOLUTE, 3, 4, 0⟩,  -- ec
  ⟨.SBC, .ABSOLUTE, 3, 4, 0⟩,  -- ed
  ⟨.INC, .ABSOLUTE, 3, 6, 0⟩,  -- ee
  ⟨.ISC, .ABSOLUTE, 0, 6, 0⟩,  -- ef
  ⟨.BEQ, .RELATIVE, 2, 2, 1⟩,  -- f0
  ⟨.SBC, .INDIRECT_INDEXED, 2, 5, 1⟩,  -- f1
  ⟨.KIL, .IMPLIED, 0, 2, 0⟩,  -- f2
  ⟨.ISC, .INDIRECT_INDEXED, 0, 8, 0⟩,  -- f3
  ⟨.NOP, .ZEROPAGE_X, 2, 4, 0⟩,  -- f4
  ⟨.SBC, .ZEROPAGE_X, 2, 4, 0⟩,  -- f5
  ⟨.INC, .ZEROPAGE_X, 2, 6, 0⟩,  -- f6
  ⟨.ISC, .ZEROPAGE_X, 0, 6, 0⟩,  -- f7
  ⟨.SED, .IMPLIED, 1, 2, 0⟩,  -- f8
  ⟨.SBC, .ABSOLUTE_Y, 3, 4, 1⟩,  -- f9
  ⟨.NOP, .IMPLIED, 1, 2, 0⟩,  -- fa
  ⟨.ISC, .ABSOLUTE_Y, 0, 7, 0⟩,  -- fb
  ⟨.NOP, .ABSOLUTE_X, 3, 4, 1⟩,  -- fc
  ⟨.SBC, .ABSOLUTE_X, 3, 4, 1⟩,  -- fd
  ⟨.INC, .ABSOLUTE_X, 3, 7, 0⟩,  -- fe
  ⟨.ISC, .ABSOLUTE_X, 0, 7, 0⟩,  -- ff
]

/-- The 256-entry opcode table `Instructions` (cpu.py lines 59-316), row `k` is the
descriptor of opcode `k` (split into 32-row groups to keep elaboration fast). -/
def Instructions : List Instruction :=
  InstructionRows0 ++ InstructionRows1 ++ InstructionRows2 ++ InstructionRows3 ++
  InstructionRows4 ++ InstructionRows5 ++ InstructionRows6 ++ InstructionRows7


def STACK_POINTER_RESET : Nat := 0xFD
def STACK_START : Nat := 0x100
def RESET_VECTOR : Nat := 0xFFFC
def NMI_VECTOR : Nat := 0xFFFA
def IRQ_BRK_VECTOR : Nat := 0xFFFE
def MEM_SIZE : Nat := 2048

/-! ## cpu.py : CPU state and memory access -/

/-- State of `class CPU` (cpu.py lines 327-353).  `ram` is the 2 KiB byte array;
the code always masks RAM indices (`% 0x800`, `& 0xFF`, `0x100 | SP`) except in
the `INDIRECT` addressing branch and immediate-mode writes, where Python could
raise `IndexError` for an index past 2047; those raw accesses are totalized by
the functional store. -/
structure CPU where
  ppu : PPU
  rom : ROM
  ram : Nat → Nat
  A : Nat
  X : Nat
  Y : Nat
  SP : Nat
  PC : Nat
  C : Bool
  Z : Bool
  I : Bool
  D : Bool
  B : Bool
  V : Bool
  N : Bool
  page_crossed : Bool
  cpu_ticks : Nat
  stall : Nat
  joypad1 : Joypad

/-- The local helper `different_pages` of `CPU.address_for_mode` (cpu.py lines
617-618).  Its second argument can be a negative Python int (`address - self.X`
after 16-bit wraparound), so it works on `Int`. -/
def different_pages (address1 address2 : Int) : Bool :=
  Int.land address1 0xFF00 != Int.land address2 0xFF00

/-- `CPU.address_for_mode` (cpu.py lines 616-652).  Returns the effective
address and the CPU (only `page_crossed` can change). -/
def CPU.address_for_mode (c : CPU) (data : Nat) (mode : MemMode) : Nat × CPU :=
  match mode with
  | .ABSOLUTE => (data, c)
  | .ABSOLUTE_X =>
    let address := (data + c.X) % 0x10000
    (address, { c with page_crossed := different_pages address ((address : Int) - c.X) })
  | .ABSOLUTE_Y =>
    let address := (data + c.Y) % 0x10000
    (address, { c with page_crossed := different_pages address ((address : Int) - c.Y) })
  | .INDEXED_INDIRECT =>
    let ls := c.ram ((data + c.X) % 0x100)
    let ms := c.ram ((data + c.X + 1) % 0x100)
    ((ms <<< 8) ||| ls, c)
  | .INDIRECT =>
    let ls := c.ram data
    let ms := if data % 0x100 = 0xFF then c.ram (data &&& 0xFF00) else c.ram (data + 1)
    ((ms <<< 8) ||| ls, c)
  | .INDIRECT_INDEXED =>
    let ls := c.ram (data % 0x100)
    let ms := c.ram ((data + 1) % 0x100)
    let address := (ms <<< 8) ||| ls
    let address := (address + c.Y) % 0x10000
    (address, { c with page_crossed := different_pages address ((address : Int) - c.Y) })
  | .RELATIVE =>
    if data < 0x80 then ((c.PC + 2 + data) % 0x10000, c)
    else (((((c.PC : Int) + 2 + ((data : Int) - 256)) % 0x10000).toNat), c)
  | .ZEROPAGE => (data, c)
  | .ZEROPAGE_X => ((data + c.X) % 0x100, c)
  | .ZEROPAGE_Y => ((data + c.Y) % 0x100, c)
  | _ => (0, c)

/-- `CPU.read_memory` (cpu.py lines 654-690).  Returns the byte read (or `none`
for an unhandled PPU register / out-of-range cartridge read) and the updated
CPU (PPU status reads and joypad reads mutate state). -/
def CPU.read_memory (c : CPU) (location : Nat) (mode : MemMode) : Option Nat × CPU :=
  if mode = .IMMEDIATE then (some location, c)
  else
    let (address, c) := c.address_for_mode location mode
    if address < 0x2000 then (some (c.ram (address % 0x800)), c)
    else if address < 0x3FFF then
      let temp := (address % 8) ||| 0x2000
      let (v, p) := c.ppu.read_register temp
      (v, { c with ppu := p })
    else if address = 0x4016 then
      if c.joypad1.strobe then (some (boolNat c.joypad1.a), c)
      else
        let jp := { c.joypad1 with read_count := c.joypad1.read_count + 1 }
        let c := { c with joypad1 := jp }
        if jp.read_count = 1 then (some (0x40 ||| boolNat jp.a), c)
        else if jp.read_count = 2 then (some (0x40 ||| boolNat jp.b), c)
        else if jp.read_count = 3 then (some (0x40 ||| boolNat jp.select), c)
        else if jp.read_count = 4 then (some (0x40 ||| boolNat jp.start), c)
        else if jp.read_count = 5 then (some (0x40 ||| boolNat jp.up), c)
        else if jp.read_count = 6 then (some (0x40 ||| boolNat jp.down), c)
        else if jp.read_count = 7 then (some (0x40 ||| boolNat jp.left), c)
        else if jp.read_count = 8 then (some (0x40 ||| boolNat jp.right), c)
        else (some 0x41, c)
    else if address < 0x6000 then (some 0, c)
    else (c.rom.read_cartridge address, c)

/-- The DMA copy loop of `CPU.write_memory` (cpu.py lines 705-707):
`for i in range(SPR_RAM_SIZE): self.ppu.spr[i] = self.read_memory(from_address + i, ABSOLUTE)`.
`i` is the next sprite index, the second `Nat` argument is the remaining
iteration count.  A `None` from `read_memory` makes the assignment into the
byte array raise (`none`). -/
def dma_copy (from_address : Nat) : Nat → Nat → CPU → Option CPU
  | _, 0, c => some c
  | i, n + 1, c =>
    match c.read_memory (from_address + i) .ABSOLUTE with
    | (none, _) => none
    | (some v, c) =>
      dma_copy from_address (i + 1) n { c with ppu := { c.ppu with spr := updFn c.ppu.spr i v } }

/-- `CPU.write_memory` (cpu.py lines 692-719). -/
def CPU.write_memory (c : CPU) (location : Nat) (mode : MemMode) (value : Nat) : Option CPU :=
  if mode = .IMMEDIATE then some { c with ram := updFn c.ram location value }
  else
    let (address, c) := c.address_for_mode location mode
    if address < 0x2000 then some { c with ram := updFn c.ram (address % 0x800) value }
    else if address < 0x3FFF then
      match c.ppu.write_register ((address % 8) ||| 0x2000) value with
      | none => none
      | some p => some { c with ppu := p }
    else if address = 0x4014 then
      let from_address := value * 0x100
      match dma_copy from_address 0 SPR_RAM_SIZE c with
      | none => none
      | some c => some { c with stall := 512 }
    else if address = 0x4016 then
      let jp := if c.joypad1.strobe && (value % 2 = 0) then { c.joypad1 with read_count := 0 }
                else c.joypad1
      some { c with joypad1 := { jp with strobe := value % 2 != 0 } }
    else if address < 0x6000 then some c
    else some { c with rom := c.rom.write_cartridge address value }

/-- `CPU.setZN` (cpu.py lines 721-723).  The argument can be a negative Python
int (`CMP` families pass `self.A - src`). -/
def CPU.setZN (c : CPU) (value : Int) : CPU :=
  { c with Z := value == 0, N := (Int.land value 0x80 != 0) || (value < 0 : Bool) }

/-- `CPU.stack_push` (cpu.py lines 725-727). -/
def CPU.stack_push (c : CPU) (value : Nat) : CPU :=
  { c with ram := updFn c.ram (0x100 ||| c.SP) value,
           SP := (((c.SP : Int) - 1) % 0x100).toNat }

/-- `CPU.stack_pop` (cpu.py lines 729-731). -/
def CPU.stack_pop (c : CPU) : Nat × CPU :=
  let sp := (c.SP + 1) % 0x100
  (c.ram (0x100 ||| sp), { c with SP := sp })

/-- The `status` property (cpu.py lines 733-736). -/
def CPU.status (c : CPU) : Nat :=
  boolNat c.C ||| boolNat c.Z <<< 1 ||| boolNat c.I <<< 2 ||| boolNat c.D <<< 3 |||
  boolNat c.B <<< 4 ||| 1 <<< 5 ||| boolNat c.V <<< 6 ||| boolNat c.N <<< 7

/-- `CPU.set_status` (cpu.py lines 738-745); the Break flag is always cleared. -/
def CPU.set_status (c : CPU) (temp : Nat) : CPU :=
  { c with C := temp &&& 0b00000001 != 0,
           Z := temp &&& 0b00000010 != 0,
           I := temp &&& 0b00000100 != 0,
           D := temp &&& 0b00001000 != 0,
           B := false,
           V := temp &&& 0b01000000 != 0,
           N := temp &&& 0b10000000 != 0 }

/-- `CPU.trigger_NMI` (cpu.py lines 747-756). -/
def CPU.trigger_NMI (c : CPU) : Option CPU :=
  let c := c.stack_push ((c.PC >>> 8) % 0x100)
  let c := c.stack_push (c.PC % 0x100)
  let c := { c with B := true }
  let c := c.stack_push c.status
  let c := { c with B := false }
  let c := { c with I := true }
  match c.read_memory NMI_VECTOR .ABSOLUTE with
  | (none, _) => none
  | (some lb, c) =>
    match c.read_memory (NMI_VECTOR + 1) .ABSOLUTE with
    | (none, _) => none
    | (some hb, c) => some { c with PC := lb ||| (hb <<< 8) }

/-! ## cpu.py : instruction execution -/

/-- The operand-byte loop of `CPU.step` (cpu.py lines 365-367):
`for i in range(1, instruction.length): data |= read_memory(PC + i) << ((i - 1) * 8)`. -/
def CPU.read_data (c : CPU) (length i data : Nat) : Option (Nat × CPU) :=
  if h : i < length then
    match c.read_memory (c.PC + i) .ABSOLUTE with
    | (none, _) => none
    | (some b, c') => c'.read_data length (i + 1) (data ||| (b <<< ((i - 1) * 8)))
  else some (data, c)
termination_by length - i

/-- The big `if instruction.type == ...` dispatch of `CPU.step` (cpu.py lines
372-604), acting on the already-fetched operand `data`.  Returns the updated
CPU and the `jumped` flag.  The final Python `else` prints
`Unimplemented Instruction` and falls through, so every instruction type
without a branch (all the illegal/unofficial opcodes) is a state-preserving
no-op here. -/
def CPU.execute (c : CPU) (instruction : Instruction) (data : Nat) : Option (CPU × Bool) :=
  match instruction.type with
  | .ADC =>
    match c.read_memory data instruction.mode with
    | (none, _) => none
    | (some src, c) =>
      let signed_result : Int := (src : Int) + (c.A : Int) + (boolNat c.C : Int)
      let c := { c with V := Int.land (Int.land (Int.lnot (Int.xor (c.A : Int) (src : Int)))
                                      (Int.xor (c.A : Int) signed_result)) 0x80 != 0 }
      let c := { c with A := (c.A + src + boolNat c.C) % 256 }
      let c := { c with C := signed_result > 0xFF }
      some (c.setZN (c.A : Int), false)
  | .AND =>
    match c.read_memory data instruction.mode with
    | (none, _) => none
    | (some src, c) =>
      let c := { c with A := c.A &&& src }
      some (c.setZN (c.A : Int), false)
  | .ASL =>
    let (osrc, c) := if instruction.mode = .ACCUMULATOR then (some c.A, c)
                     else c.read_memory data instruction.mode
    match osrc with
    | none => none
    | some src =>
      let c := { c with C := src >>> 7 != 0 }
      let src := (src <<< 1) % 0x100
      let c := c.setZN (src : Int)
      if instruction.mode = .ACCUMULATOR then some ({ c with A := src }, false)
      else (c.write_memory data instruction.mode src).map (fun c => (c, false))
  | .BCC =>
    if !c.C then
      let (address, c) := c.address_for_mode data instruction.mode
      some ({ c with PC := address }, true)
    else some (c, false)
  | .BCS =>
    if c.C then
      let (address, c) := c.address_for_mode data instruction.mode
      some ({ c with PC := address }, true)
    else some (c, false)
  | .BEQ =>
    if c.Z then
      let (address, c) := c.address_for_mode data instruction.mode
      some ({ c with PC := address }, true)
    else some (c, false)
  | .BIT =>
    match c.read_memory data instruction.mode with
    | (none, _) => none
    | (some src, c) =>
      some ({ c with V := (src >>> 6) % 2 != 0,
                     Z := (src &&& c.A) == 0,
                     N := (src >>> 7) == 1 }, false)
  | .BMI =>
    if c.N then
      let (address, c) := c.address_for_mode data instruction.mode
      some ({ c with PC := address }, true)
    else some (c, false)
  | .BNE =>
    if !c.Z then
      let (address, c) := c.address_for_mode data instruction.mode
      some ({ c with PC := address }, true)
    else some (c, false)
  | .BPL =>
    if !c.N then
      let (address, c) := c.address_for_mode data instruction.mode
      some ({ c with PC := address }, true)
    else some (c, false)
  | .BRK =>
    let c := { c with PC := c.PC + 2 }
    let c := c.stack_push ((c.PC >>> 8) % 0x100)
    let c := c.stack_push (c.PC % 0x100)
    let c := { c with B := true }
    let c := c.stack_push c.status
    let c := { c with B := false }
    let c := { c with I := true }
    match c.read_memory IRQ_BRK_VECTOR .ABSOLUTE with
    | (none, _) => none
    | (some lb, c) =>
      match c.read_memory (IRQ_BRK_VECTOR + 1) .ABSOLUTE with
      | (none, _) => none
      | (some hb, c) => some ({ c with PC := lb ||| (hb <<< 8) }, true)
  | .BVC =>
    if !c.V then
      let (address, c) := c.address_for_mode data instruction.mode
      some ({ c with PC := address }, true)
    else some (c, false)
  | .BVS =>
    if c.V then
      let (address, c) := c.address_for_mode data instruction.mode
      some ({ c with PC := address }, true)
    else some (c, false)
  | .CLC => some ({ c with C := false }, false)
  | .CLD => some ({ c with D := false }, false)
  | .CLI => some ({ c with I := false }, false)
  | .CLV => some ({ c with V := false }, false)
  | .CMP =>
    match c.read_memory data instruction.mode with
    | (none, _) => none
    | (some src, c) =>
      let c := { c with C := c.A ≥ src }
      some (c.setZN ((c.A : Int) - (src : Int)), false)
  | .CPX =>
    match c.read_memory data instruction.mode with
    | (none, _) => none
    | (some src, c) =>
      let c := { c with C := c.X ≥ src }
      some (c.setZN ((c.X : Int) - (src : Int)), false)
  | .CPY =>
    match c.read_memory data instruction.mode with
    | (none, _) => none
    | (some src, c) =>
      let c := { c with C := c.Y ≥ src }
      some (c.setZN ((c.Y : Int) - (src : Int)), false)
  | .DEC =>
    match c.read_memory data instruction.mode with
    | (none, _) => none
    | (some src, c) =>
      let src := ((((src : Int) - 1)) % 0x100).toNat
      match c.write_memory data instruction.mode src with
      | none => none
      | some c => some (c.setZN (src : Int), false)
  | .DEX =>
    let c := { c with X := (((c.X : Int) - 1) % 0x100).toNat }
    some (c.setZN (c.X : Int), false)
  | .DEY =>
    let c := { c with Y := (((c.Y : Int) - 1) % 0x100).toNat }
    some (c.setZN (c.Y : Int), false)
  | .EOR =>
    match c.read_memory data instruction.mode with
    | (none, _) => none
    | (some src, c) =>
      let c := { c with A := c.A ^^^ src }
      some (c.setZN (c.A : Int), false)
  | .INC =>
    match c.read_memory data instruction.mode with
    | (none, _) => none
    | (some src, c) =>
      let src := (src + 1) % 0x100
      match c.write_memory data instruction.mode src with
      | none => none
      | some c => some (c.setZN (src : Int), false)
  | .INX =>
    let c := { c with X := (c.X + 1) % 0x100 }
    some (c.setZN (c.X : Int), false)
  | .INY =>
    let c := { c with Y := (c.Y + 1) % 0x100 }
    some (c.setZN (c.Y : Int), false)
  | .JMP =>
    let (address, c) := c.address_for_mode data instruction.mode
    some ({ c with PC := address }, true)
  | .JSR =>
    let c := { c with PC := c.PC + 2 }
    let c := c.stack_push ((c.PC >>> 8) % 0x100)
    let c := c.stack_push (c.PC % 0x100)
    let (address, c) := c.address_for_mode data instruction.mode
    some ({ c with PC := address }, true)
  | .LDA =>
    match c.read_memory data instruction.mode with
    | (none, _) => none
    | (some src, c) =>
      let c := { c with A := src }
      some (c.setZN (c.A : Int), false)
  | .LDX =>
    match c.read_memory data instruction.mode with
    | (none, _) => none
    | (some src, c) =>
      let c := { c with X := src }
      some (c.setZN (c.X : Int), false)
  | .LDY =>
    match c.read_memory data instruction.mode with
    | (none, _) => none
    | (some src, c) =>
      let c := { c with Y := src }
      some (c.setZN (c.Y : Int), false)
  | .LSR =>
    let (osrc, c) := if instruction.mode = .ACCUMULATOR then (some c.A, c)
                     else c.read_memory data instruction.mode
    match osrc with
    | none => none
    | some src =>
      let c := { c with C := src % 2 != 0 }
      let src := src >>> 1
      let c := c.setZN (src : Int)
      if instruction.mode = .ACCUMULATOR then some ({ c with A := src }, false)
      else (c.write_memory data instruction.mode src).map (fun c => (c, false))
  | .NOP => some (c, false)
  | .ORA =>
    match c.read_memory data instruction.mode with
    | (none, _) => none
    | (some src, c) =>
      let c := { c with A := c.A ||| src }
      some (c.setZN (c.A : Int), false)
  | .PHA => some (c.stack_push c.A, false)
  | .PHP =>
    let c := { c with B := true }
    let c := c.stack_push c.status
    some ({ c with B := false }, false)
  | .PLA =>
    let (v, c) := c.stack_pop
    let c := { c with A := v }
    some (c.setZN (c.A : Int), false)
  | .PLP =>
    let (v, c) := c.stack_pop
    some (c.set_status v, false)
  | .ROL =>
    let (osrc, c) := if instruction.mode = .ACCUMULATOR then (some c.A, c)
                     else c.read_memory data instruction.mode
    match osrc with
    | none => none
    | some src =>
      let old_c := c.C
      let c := { c with C := (src >>> 7) % 2 != 0 }
      let src := ((src <<< 1) ||| boolNat old_c) % 0x100
      let c := c.setZN (src : Int)
      if instruction.mode = .ACCUMULATOR then some ({ c with A := src }, false)
      else (c.write_memory data instruction.mode src).map (fun c => (c, false))
  | .ROR =>
    let (osrc, c) := if instruction.mode = .ACCUMULATOR then (some c.A, c)
                     else c.read_memory data instruction.mode
    match osrc with
    | none => none
    | some src =>
      let old_c := c.C
      let c := { c with C := src % 2 != 0 }
      let src := ((src >>> 1) ||| (boolNat old_c <<< 7)) % 0x100
      let c := c.setZN (src : Int)
      if instruction.mode = .ACCUMULATOR then some ({ c with A := src }, false)
      else (c.write_memory data instruction.mode src).map (fun c => (c, false))
  | .RTI =>
    let (v, c) := c.stack_pop
    let c := c.set_status v
    let (lb, c) := c.stack_pop
    let (hb, c) := c.stack_pop
    some ({ c with PC := (hb <<< 8) ||| lb }, true)
  | .RTS =>
    let (lb, c) := c.stack_pop
    let (hb, c) := c.stack_pop
    some ({ c with PC := ((hb <<< 8) ||| lb) + 1 }, true)
  | .SBC =>
    match c.read_memory data instruction.mode with
    | (none, _) => none
    | (some src, c) =>
      let signed_result : Int := (c.A : Int) - (src : Int) - (1 - (boolNat c.C : Int))
      let c := { c with V := Int.land (Int.land (Int.xor (c.A : Int) (src : Int))
                                      (Int.xor (c.A : Int) signed_result)) 0x80 != 0 }
      let c := { c with A := (((c.A : Int) - (src : Int) - (1 - (boolNat c.C : Int))) % 0x100).toNat }
      let c := { c with C := !(signed_result < 0 : Bool) }
      some (c.setZN (c.A : Int), false)
  | .SEC => some ({ c with C := true }, false)
  | .SED => some ({ c with D := true }, false)
  | .SEI => some ({ c with I := true }, false)
  | .STA => (c.write_memory data instruction.mode c.A).map (fun c => (c, false))
  | .STX => (c.write_memory data instruction.mode c.X).map (fun c => (c, false))
  | .STY => (c.write_memory data instruction.mode c.Y).map (fun c => (c, false))
  | .TAX =>
    let c := { c with X := c.A }
    some (c.setZN (c.X : Int), false)
  | .TAY =>
    let c := { c with Y := c.A }
    some (c.setZN (c.Y : Int), false)
  | .TSX =>
    let c := { c with X := c.SP }
    some (c.setZN (c.X : Int), false)
  | .TXA =>
    let c := { c with A := c.X }
    some (c.setZN (c.A : Int), false)
  | .TXS => some ({ c with SP := c.X }, false)
  | .TYA =>
    let c := { c with A := c.Y }
    some (c.setZN (c.A : Int), false)
  | _ => some (c, false)

/-- `CPU.step` (cpu.py lines 355-614). -/
def CPU.step (c : CPU) : Option CPU :=
  if c.stall > 0 then
    some { c with stall := c.stall - 1, cpu_ticks := c.cpu_ticks + 1 }
  else
    match c.read_memory c.PC .ABSOLUTE with
    | (none, _) => none
    | (some opcode, c) =>
      let c := { c with page_crossed := false }
      match Instructions.get? opcode with
      | none => none
      | some instruction =>
        match c.read_data instruction.length 1 0 with
        | none => none
        | some (data, c) =>
          match c.execute instruction data with
          | none => none
          | some (c, jumped) =>
            let c :=
              if !jumped then { c with PC := c.PC + instruction.length }
              else if [InstructionType.BCC, InstructionType.BCS, InstructionType.BEQ,
                       InstructionType.BMI, InstructionType.BNE, InstructionType.BPL,
                       InstructionType.BVC, InstructionType.BVS].contains instruction.type then
                { c with cpu_ticks := c.cpu_ticks + 1 }
              else c
            let c := { c with cpu_ticks := c.cpu_ticks + instruction.ticks }
            some (if c.page_crossed then { c with cpu_ticks := c.cpu_ticks + instruction.page_ticks }
                  else c)

/-! ## General helper lemmas -/

/-- Recomposing a 16-bit value from its high and low bytes. -/
lemma byte_recompose (x : Nat) (hx : x < 0x10000) :
    (((x >>> 8) % 0x100) <<< 8) ||| (x % 0x100) = x := by
  have h256 : (0x100 : Nat) = 2 ^ 8 := by norm_num
  apply Nat.eq_of_testBit_eq
  intro i
  rw [Nat.testBit_lor, Nat.testBit_shiftLeft, h256, Nat.testBit_mod_two_pow,
      Nat.testBit_mod_two_pow, Nat.testBit_shiftRight]
  rcases Nat.lt_or_ge i 8 with hi | hi
  · have h1 : ¬ (8 ≤ i) := by omega
    simp [hi, h1]
  · rcases Nat.lt_or_ge i 16 with hi16 | hi16
    · have h1 : i - 8 < 8 := by omega
      have h2 : ¬ (i < 8) := by omega
      have h3 : 8 + (i - 8) = i := by omega
      simp [hi, h1, h2, h3]
    · have g1 : ¬ (i - 8 < 8) := by omega
      have g2 : ¬ (i < 8) := by omega
      have : x < 2 ^ i := lt_of_lt_of_le hx (by
        calc (0x10000 : Nat) = 2 ^ 16 := by norm_num
        _ ≤ 2 ^ i := Nat.pow_le_pow_right (by norm_num) hi16)
      simp [g1, g2, Nat.testBit_eq_false_of_lt this]

/-- `PPU.__init__` (ppu.py lines 24-45). -/
def PPU.new : PPU :=
  { spr := fun _ => 0, nametables := fun _ => 0, palette := fun _ => 0,
    addr := 0, addr_write_latch := false, status := 0, spr_address := 0,
    nametable_address := 0, address_increment := 1, spr_pattern_table_address := 0,
    background_pattern_table_address := 0, generate_nmi := false,
    show_background := false, show_sprites := false, left_8_sprite_show := false,
    left_8_background_show := false, buffer2007 := some 0 }

/-! ## Claim C6 -/

/-- C6: reading the PPU status port `0x2002` returns the status byte as it was
before the read, clears the vertical-blank bit (bit 7) of the stored status
(`status % 0x80` keeps bits 0-6 and drops bit 7), resets the address-write
latch so that the next `0x2006` write lands in the high byte of `addr`, and
leaves every other PPU field unchanged. -/
theorem C6_status_port_read (p : PPU) (v : Nat) :
    (p.read_register 0x2002).1 = some p.status ∧
    (p.read_register 0x2002).2.status = p.status % 0x80 ∧
    (p.read_register 0x2002).2.addr_write_latch = false ∧
    (p.read_register 0x2002).2.write_register 0x2006 v =
      some { (p.read_register 0x2002).2 with
             addr := ((p.read_register 0x2002).2.addr % 0x100) ||| ((v % 0x100) <<< 8),
             addr_write_latch := true } ∧
    (p.read_register 0x2002).2.spr = p.spr ∧
    (p.read_register 0x2002).2.nametables = p.nametables ∧
    (p.read_register 0x2002).2.palette = p.palette ∧
    (p.read_register 0x2002).2.addr = p.addr ∧
    (p.read_register 0x2002).2.spr_address = p.spr_address ∧
    (p.read_register 0x2002).2.nametable_address = p.nametable_address ∧
    (p.read_register 0x2002).2.address_increment = p.address_increment ∧
    (p.read_register 0x2002).2.spr_pattern_table_address = p.spr_pattern_table_address ∧
    (p.read_register 0x2002).2.background_pattern_table_address =
      p.background_pattern_table_address ∧
    (p.read_register 0x2002).2.generate_nmi = p.generate_nmi ∧
    (p.read_register 0x2002).2.show_background = p.show_background ∧
    (p.read_register 0x2002).2.show_sprites = p.show_sprites ∧
    (p.read_register 0x2002).2.left_8_sprite_show = p.left_8_sprite_show ∧
    (p.read_register 0x2002).2.left_8_background_show = p.left_8_background_show ∧
    (p.read_register 0x2002).2.buffer2007 = p.buffer2007 := by
  have hmask : p.status &&& 0b01111111 = p.status % 0x80 := by
    have : (0b01111111 : Nat) = 2 ^ 7 - 1 := by norm_num
    rw [this, Nat.and_pow_two_sub_one_eq_mod]
  simp [PPU.read_register, PPU.write_register, hmask]

/-! ## Claim C10 -/

/-- C10: writing the OAM-data port `0x2004` increments the OAM address by one
with no 8-bit wraparound.  In particular, after a write performed with OAM
address 255 the address equals 256, and the next OAM-data port read or write
accesses index 256, past the end of the 256-byte table, instead of wrapping to
index 0 — in the model that out-of-range access is the failure `none`
(`IndexError` in the Python). -/
theorem C10_oam_address_no_wraparound :
    (∀ (q : PPU) (v : Nat), q.spr_address < SPR_RAM_SIZE →
      ∃ q', q.write_register 0x2004 v = some q' ∧
        q'.spr_address = q.spr_address + 1 ∧ q'.spr = updFn q.spr q.spr_address v) ∧
    (∀ (p : PPU) (v w : Nat), p.spr_address = 255 →
      ∃ p', p.write_register 0x2004 v = some p' ∧ p'.spr_address = 256 ∧
        (p'.read_register 0x2004).1 = none ∧ p'.write_register 0x2004 w = none) := by
  constructor
  · intro q v hq
    have hw : q.write_register 0x2004 v = some { q with spr := updFn q.spr q.spr_address v, spr_address := q.spr_address + 1 } := by
      simp [PPU.write_register, hq]
    exact ⟨_, hw, rfl, rfl⟩
  · intro p v w hp
    have hw : p.write_register 0x2004 v = some { p with spr := updFn p.spr 255 v, spr_address := 256 } := by
      simp [PPU.write_register, hp, SPR_RAM_SIZE]
    refine ⟨_, hw, rfl, ?_, ?_⟩
    · simp [PPU.read_register, SPR_RAM_SIZE]
    · simp [PPU.write_register, SPR_RAM_SIZE]

/-- Witness for C10 at a concrete PPU whose OAM address is 255. -/
theorem C10_oam_address_no_wraparound_witness :
    ∃ p', ({ PPU.new with spr_address := 255 } : PPU).write_register 0x2004 7 = some p' ∧
      p'.spr_address = 256 ∧ (p'.read_register 0x2004).1 = none ∧
      p'.write_register 0x2004 3 = none :=
  C10_oam_address_no_wraparound.2 { PPU.new with spr_address := 255 } 7 3 rfl

/-! ## Claim C8 -/

/-- C8: with a single 16 KiB PRG bank, every cartridge read at `0xC000 + k`
returns the same result as the read at `0x8000 + k`, for `k < 0x4000`. -/
theorem C8_single_bank_mirroring (rom : ROM) (k : Nat)
    (h1 : rom.header.prg_rom_size = 1) (hk : k < 0x4000) :
    rom.read_mapper0 (0xC000 + k) = rom.read_mapper0 (0x8000 + k) := by
  unfold ROM.read_mapper0 PRG_ROM_BASE_UNIT_SIZE
  have harg : (0xC000 + k - 0x8000) % 16384 = (0x8000 + k - 0x8000) % 16384 := by omega
  split_ifs <;> first
    | omega
    | rw [harg]

/-- A concrete single-bank cartridge for the C8 witness. -/
def romW : ROM :=
  { header := ⟨0x4E45531A, 1, 1, 0, 0, 0, 0, 0, [0, 0, 0, 0, 0]⟩, mapper := 0,
    has_trainer := false, trainer_data := none, vertical_mirroring := false,
    prg_rom := [7], chr_rom := [], prg_ram := fun _ => 0 }

/-- Witness for C8: on `romW` the mirrored addresses read the same byte. -/
theorem C8_single_bank_mirroring_witness :
    romW.header.prg_rom_size = 1 ∧
    romW.read_mapper0 (0xC000 + 0) = romW.read_mapper0 (0x8000 + 0) :=
  ⟨by simp [romW], C8_single_bank_mirroring romW 0 (by simp [romW]) (by norm_num)⟩

/-! ## Claim C7 -/

/-- C7: loading a cartridge image with an invalid signature or a nonzero
(unsupported) mapper still completes: `ROM.init` succeeds, the diagnostic is
emitted, and the header fields, trainer (when flagged), PRG-ROM, CHR-ROM and
PRG-RAM are all populated, with the mapper-0 read/write entry points installed.
The only failure mode is a file too short for the 16-byte header
(`struct.unpack` raises), which is outside this claim. -/
theorem C7_lenient_rom_loading (file : List Nat)
    (hlen : HEADER_SIZE ≤ file.length)
    (hbad : (((file.getD 0 0) <<< 24) ||| ((file.getD 1 0) <<< 16) |||
             ((file.getD 2 0) <<< 8) ||| (file.getD 3 0)) ≠ 0x4E45531A ∨
            (((file.getD 7 0) &&& 0xF0) ||| (((file.getD 6 0) &&& 0xF0) >>> 4)) ≠ 0) :
    ∃ rom diags, ROM.init file = some (rom, diags) ∧
      ((((file.getD 0 0) <<< 24) ||| ((file.getD 1 0) <<< 16) |||
        ((file.getD 2 0) <<< 8) ||| (file.getD 3 0)) ≠ 0x4E45531A →
        Diag.invalidSignature ∈ diags) ∧
      ((((file.getD 7 0) &&& 0xF0) ||| (((file.getD 6 0) &&& 0xF0) >>> 4)) ≠ 0 →
        Diag.invalidMapper ∈ diags) ∧
      rom.header.signature = (((file.getD 0 0) <<< 24) ||| ((file.getD 1 0) <<< 16) |||
        ((file.getD 2 0) <<< 8) ||| (file.getD 3 0)) ∧
      rom.header.prg_rom_size = file.getD 4 0 ∧
      rom.header.chr_rom_size = file.getD 5 0 ∧
      rom.header.flags6 = file.getD 6 0 ∧
      rom.header.flags7 = file.getD 7 0 ∧
      rom.mapper = (((file.getD 7 0) &&& 0xF0) ||| (((file.getD 6 0) &&& 0xF0) >>> 4)) ∧
      rom.has_trainer = ((file.getD 6 0) &&& 4 != 0) ∧
      (rom.has_trainer = true →
        rom.trainer_data = some ((file.drop HEADER_SIZE).take TRAINER_SIZE)) ∧
      rom.prg_rom = (file.drop (HEADER_SIZE +
          (if ((file.getD 6 0) &&& 4 != 0 : Bool) then TRAINER_SIZE else 0))).take
          (PRG_ROM_BASE_UNIT_SIZE * file.getD 4 0) ∧
      rom.chr_rom = (file.drop (HEADER_SIZE +
          (if ((file.getD 6 0) &&& 4 != 0 : Bool) then TRAINER_SIZE else 0) +
          PRG_ROM_BASE_UNIT_SIZE * file.getD 4 0)).take
          (CHR_ROM_BASE_UNIT_SIZE * file.getD 5 0) ∧
      (∀ a, rom.prg_ram a = 0) ∧
      ROM.read_cartridge = ROM.read_mapper0 ∧
      ROM.write_cartridge = ROM.write_mapper0 := by
  unfold ROM.init
  rw [if_neg (by omega : ¬ (file.length < HEADER_SIZE))]
  refine ⟨_, _, rfl, ?_, ?_, rfl, rfl, rfl, rfl, rfl, rfl, rfl, ?_, rfl, rfl,
          fun a => rfl, rfl, rfl⟩
  · intro h
    simp at h
    simp [h]
  · intro h
    simp at h
    simp [h]
  · intro h
    simp at h
    simp [h]

/-- Witness for C7: a 16-byte all-zero file has an invalid signature yet loads. -/
theorem C7_lenient_rom_loading_witness :
    ∃ rom diags, ROM.init (List.replicate 16 0) = some (rom, diags) ∧
      Diag.invalidSignature ∈ diags := by
  obtain ⟨rom, diags, h1, h2, _⟩ :=
    C7_lenient_rom_loading (List.replicate 16 0) (by decide) (Or.inl (by decide))
  exact ⟨rom, diags, h1, h2 (by decide)⟩

/-! ## CPU helper lemmas and base states -/

/-- Or-ing the stack page base into a byte offset is plain addition. -/
lemma or_0x100_eq_add (x : Nat) (hx : x < 0x100) : 0x100 ||| x = 0x100 + x := by
  have h8 : (0x100 : Nat) = 2 ^ 8 := by norm_num
  apply Nat.eq_of_testBit_eq
  intro i
  rw [Nat.testBit_lor, h8]
  rcases Nat.lt_trichotomy i 8 with hi | hi | hi
  · rw [Nat.testBit_two_pow_add_gt hi, Nat.testBit_two_pow_of_ne (by omega)]
    simp
  · subst hi
    rw [Nat.testBit_two_pow_add_eq, Nat.testBit_two_pow_self,
        Nat.testBit_lt_two_pow (by omega : x < 2 ^ 8)]
    simp
  · have hlt : 2 ^ 8 + x < 2 ^ i := by
      have : (2 : Nat) ^ 9 ≤ 2 ^ i := Nat.pow_le_pow_right (by norm_num) (by omega)
      have h9 : (2 : Nat) ^ 9 = 512 := by norm_num
      omega
    rw [Nat.testBit_lt_two_pow hlt, Nat.testBit_two_pow_of_ne (by omega),
        Nat.testBit_lt_two_pow (by omega : x < 2 ^ i)]
    simp

/-- The `Joypad()` default constructed in `CPU.__init__`. -/
def Joypad.new : Joypad :=
  { strobe := false, read_count := 0, a := false, b := false, select := false,
    start := false, up := false, down := false, left := false, right := false }

/-- A CPU in the state produced by `CPU.__init__` (cpu.py lines 328-353) except
that `PC` starts at 0 instead of being fetched from the reset vector (the tests
overwrite `PC` anyway). -/
def baseCPU (rom : ROM) : CPU :=
  { ppu := PPU.new, rom := rom, ram := fun _ => 0, A := 0, X := 0, Y := 0,
    SP := STACK_POINTER_RESET, PC := 0, C := false, Z := false, I := true, D := false,
    B := false, V := false, N := false, page_crossed := false, cpu_ticks := 0, stall := 0,
    joypad1 := Joypad.new }

/-- A read from main RAM (address below `0x2000`) in `ABSOLUTE` mode returns the
mirrored RAM byte and leaves the state unchanged. -/
lemma read_memory_ram (c : CPU) (a : Nat) (ha : a < 0x2000) :
    c.read_memory a .ABSOLUTE = (some (c.ram (a % 0x800)), c) := by
  simp [CPU.read_memory, CPU.address_for_mode, ha]

/-- A read from the cartridge range (address at least `0x6000`) in `ABSOLUTE`
mode delegates to mapper 0 and leaves the state unchanged. -/
lemma read_memory_cart (c : CPU) (a : Nat) (ha : 0x6000 ≤ a) :
    c.read_memory a .ABSOLUTE = (c.rom.read_mapper0 a, c) := by
  have h1 : ¬ (a < 0x2000) := by omega
  have h2 : ¬ (a < 0x3FFF) := by omega
  have h3 : a ≠ 0x4016 := by omega
  have h4 : ¬ (a < 0x6000) := by omega
  simp [CPU.read_memory, CPU.address_for_mode, ROM.read_cartridge, h1, h2, h3, h4]

/-! ## Claim C1 -/

/-- A single-bank cartridge whose NMI vector at `0xFFFA`/`0xFFFB` holds
`0x56`/`0x12` (vector target `0x1256`). -/
def romVec : ROM :=
  { header := ⟨0x4E45531A, 1, 1, 0, 0, 0, 0, 0, [0, 0, 0, 0, 0]⟩, mapper := 0,
    has_trainer := false, trainer_data := none, vertical_mirroring := false,
    prg_rom := List.replicate 0x3FFA 0 ++ [0x56, 0x12], chr_rom := [],
    prg_ram := fun _ => 0 }

lemma romVec_lo : romVec.read_mapper0 0xFFFA = some 0x56 := by
  have h : (0xFFFA - 0x8000) % PRG_ROM_BASE_UNIT_SIZE = 0x3FFA := by
    unfold PRG_ROM_BASE_UNIT_SIZE; norm_num
  simp only [ROM.read_mapper0, romVec, h]
  norm_num [List.get?_eq_getElem?, List.getElem?_append_right, List.length_replicate,
            List.getElem_append_right]

lemma romVec_hi : romVec.read_mapper0 0xFFFB = some 0x12 := by
  have h : (0xFFFB - 0x8000) % PRG_ROM_BASE_UNIT_SIZE = 0x3FFB := by
    unfold PRG_ROM_BASE_UNIT_SIZE; norm_num
  simp only [ROM.read_mapper0, romVec, h]
  norm_num [List.get?_eq_getElem?, List.getElem?_append_right, List.length_replicate,
            List.getElem_append_right]

/-- The concrete CPU state used to exercise `trigger_NMI`: fresh reset state
(`SP = 0xFD`, Interrupt-disable set, all other flags clear) at `PC = 0x4321`. -/
def cpuC1 : CPU := { baseCPU romVec with PC := 0x4321 }

/-- C1: `trigger_NMI` pushes PC high then low, then the status byte, sets
Interrupt-disable, and loads PC from the vector at `0xFFFA`/`0xFFFB` — but the
pushed status byte is `0x34`, whose Break bit (bit 4) is **set**, exactly as in
BRK: the code sets `B = True` before pushing (cpu.py line 750), while the spec
requires the Break flag to be forced low for NMI, unlike BRK. -/
theorem C1_nmi_pushes_break_set :
    ∃ c', cpuC1.trigger_NMI = some c' ∧
      c'.ram 0x1FD = 0x43 ∧ c'.ram 0x1FC = 0x21 ∧
      c'.ram 0x1FB = 0x34 ∧ Nat.testBit 0x34 4 = true ∧
      c'.I = true ∧ c'.B = false ∧ c'.PC = 0x1256 ∧ c'.SP = 0xFA := by
  have hrun : cpuC1.trigger_NMI = some { cpuC1 with
      ram := updFn (updFn (updFn cpuC1.ram 0x1FD 0x43) 0x1FC 0x21) 0x1FB 0x34,
      SP := 0xFA, B := false, I := true, PC := 0x1256 } := by
    simp [CPU.trigger_NMI, CPU.stack_push, read_memory_cart, romVec_lo, romVec_hi,
          NMI_VECTOR, CPU.status, cpuC1, baseCPU, STACK_POINTER_RESET, boolNat]
  refine ⟨_, hrun, by decide, by decide, by decide, by decide, rfl, rfl, rfl, rfl⟩

/-! ## Claim C9 -/

/-- Row `0x20` of the opcode table is JSR (absolute, 3 bytes). -/
lemma Instructions_get_0x20 :
    Instructions.get? 0x20 = some ⟨.JSR, .ABSOLUTE, 3, 6, 0⟩ := by decide

/-- Row `0x60` of the opcode table is RTS (implied, 1 byte). -/
lemma Instructions_get_0x60 :
    Instructions.get? 0x60 = some ⟨.RTS, .IMPLIED, 1, 6, 0⟩ := by decide

/-- Fetching the two operand bytes of a 3-byte instruction whose reads are
side-effect-free. -/
lemma read_data_three (c : CPU) (lo hi : Nat)
    (h1 : c.read_memory (c.PC + 1) .ABSOLUTE = (some lo, c))
    (h2 : c.read_memory (c.PC + 2) .ABSOLUTE = (some hi, c)) :
    c.read_data 3 1 0 = some (lo ||| (hi <<< 8), c) := by
  rw [CPU.read_data]
  norm_num [h1]
  rw [CPU.read_data]
  norm_num [h2]
  rw [CPU.read_data]
  norm_num

/-- A 1-byte instruction fetches no operand bytes. -/
lemma read_data_one (c : CPU) : c.read_data 1 1 0 = some (0, c) := by
  rw [CPU.read_data]
  norm_num

/-- One `step` of an RTS instruction fetched from RAM: pops the return address
low byte then high byte and resumes one past the reconstructed address. -/
lemma rts_step (d : CPU) (hstall : d.stall = 0) (hPC : d.PC < 0x2000)
    (hop : d.ram (d.PC % 0x800) = 0x60) :
    d.step = some { d with
      SP := ((d.SP + 1) % 0x100 + 1) % 0x100,
      PC := ((d.ram (0x100 ||| (((d.SP + 1) % 0x100 + 1) % 0x100)) <<< 8) |||
             d.ram (0x100 ||| ((d.SP + 1) % 0x100))) + 1,
      page_crossed := false,
      cpu_ticks := d.cpu_ticks + 6 } := by
  unfold CPU.step
  rw [if_neg (by simp [hstall])]
  rw [read_memory_ram _ _ hPC]
  rw [hop]
  simp only [Instructions_get_0x60]
  rw [read_data_one]
  norm_num [CPU.execute, CPU.stack_pop]
  simp

set_option maxRecDepth 4000 in
/-- C9: a JSR at PC `p` (3-byte instruction in RAM, outside the stack page)
pushes `p + 2` high byte first and jumps to the operand address; an RTS
placed at that address pops the pushed address, adds one, and resumes at
`p + 3`, the instruction directly after the JSR. -/
theorem C9_jsr_rts_roundtrip (c : CPU) (lo hi : Nat)
    (hstall : c.stall = 0)
    (hPClo : 0x200 ≤ c.PC) (hPChi : c.PC + 2 < 0x800)
    (hSPlo : 2 ≤ c.SP) (hSPhi : c.SP ≤ 0xFF)
    (hop : c.ram c.PC = 0x20)
    (hlo : c.ram (c.PC + 1) = lo) (hhi : c.ram (c.PC + 2) = hi)
    (hlo8 : lo < 0x100) (hhi8 : hi < 0x100)
    (htlo : 0x200 ≤ lo ||| (hi <<< 8)) (hthi : lo ||| (hi <<< 8) < 0x800)
    (hrts : c.ram (lo ||| (hi <<< 8)) = 0x60) :
    ∃ c1, c.step = some c1 ∧
      c1.PC = lo ||| (hi <<< 8) ∧
      c1.ram (0x100 + c.SP) = ((c.PC + 2) >>> 8) % 0x100 ∧
      c1.ram (0x100 + (c.SP - 1)) = (c.PC + 2) % 0x100 ∧
      c1.SP = c.SP - 2 ∧
      ∃ c2, c1.step = some c2 ∧ c2.PC = c.PC + 3 := by
  have hmod0 : c.PC % 0x800 = c.PC := by omega
  have hmod1 : (c.PC + 1) % 0x800 = c.PC + 1 := by omega
  have hmod2 : (c.PC + 2) % 0x800 = c.PC + 2 := by omega
  have o1 : 0x100 ||| c.SP = 0x100 + c.SP := or_0x100_eq_add _ (by omega)
  have e1 : (((c.SP : Int) - 1) % 0x100).toNat = c.SP - 1 := by omega
  have o2 : 0x100 ||| (c.SP - 1) = 0x100 + (c.SP - 1) := or_0x100_eq_add _ (by omega)
  have e2 : ((((c.SP - 1 : Nat) : Int) - 1) % 0x100).toNat = c.SP - 2 := by omega
  have hf0 : c.read_memory c.PC .ABSOLUTE = (some 0x20, c) := by
    rw [read_memory_ram _ _ (by omega)]
    rw [hmod0, hop]
  have hf1 : ({ c with page_crossed := false } : CPU).read_memory (c.PC + 1) .ABSOLUTE =
      (some lo, { c with page_crossed := false }) := by
    rw [read_memory_ram _ _ (by omega)]
    simp [hmod1, hlo]
  have hf2 : ({ c with page_crossed := false } : CPU).read_memory (c.PC + 2) .ABSOLUTE =
      (some hi, { c with page_crossed := false }) := by
    rw [read_memory_ram _ _ (by omega)]
    simp [hmod2, hhi]
  have hstep1 : c.step = some { c with
      ram := updFn (updFn c.ram (0x100 + c.SP) (((c.PC + 2) >>> 8) % 0x100))
                   (0x100 + (c.SP - 1)) ((c.PC + 2) % 0x100),
      SP := c.SP - 2, PC := lo ||| (hi <<< 8), page_crossed := false,
      cpu_ticks := c.cpu_ticks + 6 } := by
    unfold CPU.step
    rw [if_neg (by simp [hstall])]
    rw [hf0]
    simp only [Instructions_get_0x20]
    rw [read_data_three _ lo hi hf1 hf2]
    norm_num [CPU.execute, CPU.stack_push, CPU.address_for_mode, o1, e1, o2, e2]
    simp
  refine ⟨_, hstep1, rfl, ?_, ?_, rfl, ?_⟩
  · have hne : 0x100 + c.SP ≠ 0x100 + (c.SP - 1) := by omega
    simp [updFn, hne]
  · simp [updFn]
  · have htmod : (lo ||| (hi <<< 8)) % 0x800 = lo ||| (hi <<< 8) := by omega
    have hd1 : lo ||| (hi <<< 8) ≠ 0x100 + (c.SP - 1) := by omega
    have hd2 : lo ||| (hi <<< 8) ≠ 0x100 + c.SP := by omega
    have p1 : (c.SP - 2 + 1) % 0x100 = c.SP - 1 := by omega
    have p2 : (c.SP - 1 + 1) % 0x100 = c.SP := by omega
    have o3 : 0x100 ||| (c.SP - 2) = 0x100 + (c.SP - 2) := or_0x100_eq_add _ (by omega)
    have hrec : ((((c.PC + 2) >>> 8) % 0x100) <<< 8) ||| ((c.PC + 2) % 0x100) = c.PC + 2 :=
      byte_recompose (c.PC + 2) (by omega)
    have hadd : c.PC + 2 + 1 = c.PC + 3 := by omega
    set s1 : CPU := { c with
      ram := updFn (updFn c.ram (0x100 + c.SP) (((c.PC + 2) >>> 8) % 0x100))
                   (0x100 + (c.SP - 1)) ((c.PC + 2) % 0x100),
      SP := c.SP - 2, PC := lo ||| (hi <<< 8), page_crossed := false,
      cpu_ticks := c.cpu_ticks + 6 } with hs1
    have hne : (0x100 + c.SP) ≠ (0x100 + (c.SP - 1)) := by omega
    have hop2 : s1.ram (s1.PC % 0x800) = 0x60 := by
      simp only [hs1]
      simp [updFn, htmod, hd1, hd2, hrts]
    have hstep2 := rts_step s1 (by simp [hs1, hstall]) (by simp [hs1]; omega) hop2
    simp only [hs1] at hstep2
    simp [updFn, p1, p2, o1, o2, hne, hrec, hadd] at hstep2
    exact ⟨_, hstep2, by simp⟩

/-- RAM image for the C9 witness: JSR $0234 at `0x200`, RTS at `0x234`. -/
def ramC9 : Nat → Nat := fun a =>
  if a = 0x200 then 0x20
  else if a = 0x201 then 0x34
  else if a = 0x202 then 0x02
  else if a = 0x234 then 0x60
  else 0

/-- Concrete machine for the C9 witness. -/
def cpuC9 : CPU := { baseCPU romW with PC := 0x200, ram := ramC9 }

/-- Witness for C9: the concrete JSR/RTS pair resumes at `0x203`. -/
theorem C9_jsr_rts_roundtrip_witness :
    ∃ c1, cpuC9.step = some c1 ∧ ∃ c2, c1.step = some c2 ∧ c2.PC = 0x203 := by
  obtain ⟨c1, h1, -, -, -, -, c2, h2, hpc⟩ :=
    C9_jsr_rts_roundtrip cpuC9 0x34 0x02 rfl (by decide) (by decide) (by decide) (by decide)
      (by decide) (by decide) (by decide) (by decide) (by decide) (by decide) (by decide)
      (by decide)
  exact ⟨c1, h1, c2, h2, hpc.trans (by decide)⟩

/-! ## Claim C3 -/

/-- The instruction types that appear only in illegal/unofficial opcode rows of
the table; none of them has a branch in the executor dispatch, so they all fall
into the Python `else` that prints `Unimplemented Instruction`. -/
def illegalTypes : List InstructionType :=
  [.AHX, .ALR, .ANC, .ARR, .AXS, .DCP, .ISC, .KIL, .LAS, .LAX, .RLA, .RRA,
   .SAX, .SHX, .SHY, .SLO, .SRE, .TAS, .XAA]

/-- Executing any illegal instruction type is a state-preserving no-op. -/
lemma execute_illegal (c : CPU) (instr : Instruction) (data : Nat)
    (hill : instr.type ∈ illegalTypes) :
    c.execute instr data = some (c, false) := by
  simp only [illegalTypes, List.mem_cons, List.not_mem_nil, or_false] at hill
  rcases hill with h|h|h|h|h|h|h|h|h|h|h|h|h|h|h|h|h|h|h <;> simp [CPU.execute, h]

/-- A 0-length (illegal) instruction fetches no operand bytes. -/
lemma read_data_zero (c : CPU) : c.read_data 0 1 0 = some (0, c) := by
  rw [CPU.read_data]
  norm_num

/-- Row `0xA7` of the opcode table is the illegal LAX zeropage (length 0). -/
lemma Instructions_get_0xA7 :
    Instructions.get? 0xA7 = some ⟨.LAX, .ZEROPAGE, 0, 3, 0⟩ := by decide

/-- C3 (amended): stepping an opcode whose table row carries an illegal
instruction type performs no register, flag, or memory side effect at all: the
step only clears `page_crossed`, adds the row's tick count, and leaves PC where
it was (the row's declared length is 0). -/
theorem C3_illegal_opcodes_unimplemented (c : CPU) (op : Nat) (instr : Instruction)
    (hstall : c.stall = 0) (hPC : c.PC < 0x2000)
    (hop : c.ram (c.PC % 0x800) = op)
    (hget : Instructions.get? op = some instr)
    (hill : instr.type ∈ illegalTypes)
    (hlen : instr.length = 0) :
    c.step = some { c with page_crossed := false,
                           cpu_ticks := c.cpu_ticks + instr.ticks } := by
  unfold CPU.step
  rw [if_neg (by simp [hstall])]
  rw [read_memory_ram _ _ hPC]
  rw [hop]
  simp only [hget]
  rw [hlen]
  rw [read_data_zero]
  simp only [execute_illegal _ _ _ hill]
  have hnb : ([InstructionType.BCC, InstructionType.BCS, InstructionType.BEQ,
       InstructionType.BMI, InstructionType.BNE, InstructionType.BPL,
       InstructionType.BVC, InstructionType.BVS].contains instr.type) = false := by
    simp only [illegalTypes, List.mem_cons, List.not_mem_nil, or_false] at hill
    rcases hill with h|h|h|h|h|h|h|h|h|h|h|h|h|h|h|h|h|h|h <;> simp [h]
  simp [hnb, hlen]

/-- RAM image for the C3 machine: LAX zeropage (`0xA7 0x10`) at `0x300`, with
`0x42` in the zero-page operand cell `0x10`. -/
def ramC3 : Nat → Nat := fun a =>
  if a = 0x300 then 0xA7
  else if a = 0x301 then 0x10
  else if a = 0x10 then 0x42
  else 0

/-- Concrete machine executing the illegal LAX opcode. -/
def cpuC3 : CPU := { baseCPU romW with PC := 0x300, ram := ramC3 }

/-- Witness for the amended C3 at the concrete LAX machine. -/
theorem C3_illegal_opcodes_unimplemented_witness :
    cpuC3.step = some { cpuC3 with
      page_crossed := false,
      cpu_ticks := cpuC3.cpu_ticks + 3 } :=
  C3_illegal_opcodes_unimplemented cpuC3 0xA7 ⟨.LAX, .ZEROPAGE, 0, 3, 0⟩
    rfl (by decide) (by decide) Instructions_get_0xA7 (by decide) rfl

/-- Counterexample to C3 as stated: opcode `0xA7` is LAX, the combined
load-and-transfer, and its zero-page operand cell holds `0x42`; the combined
side effects would set `A = X = 0x42`, but after one step both registers are
still 0 — the illegal opcode executed neither constituent operation. -/
theorem C3_counterexample :
    ∃ s', cpuC3.step = some s' ∧ cpuC3.ram 0x10 = 0x42 ∧
      s'.A = 0 ∧ s'.X = 0 ∧ s'.A ≠ 0x42 ∧ s'.X ≠ 0x42 := by
  have hrun : cpuC3.step = some { cpuC3 with
      page_crossed := false,
      cpu_ticks := cpuC3.cpu_ticks + 3 } := by
    unfold CPU.step
    rw [if_neg (by simp [cpuC3, baseCPU])]
    rw [read_memory_ram _ _ (by decide)]
    have hop : cpuC3.ram (cpuC3.PC % 0x800) = 0xA7 := by decide
    rw [hop]
    simp only [Instructions_get_0xA7]
    rw [read_data_zero]
    simp only [execute_illegal _ _ _
      (by decide : (Instruction.mk .LAX .ZEROPAGE 0 3 0).type ∈ illegalTypes)]
    simp
  exact ⟨_, hrun, by decide, by decide, by decide, by decide, by decide⟩

/-! ## Claim C4 -/

/-- Fetching the single operand byte of a 2-byte instruction whose read is
side-effect-free. -/
lemma read_data_two (c : CPU) (lo : Nat)
    (h1 : c.read_memory (c.PC + 1) .ABSOLUTE = (some lo, c)) :
    c.read_data 2 1 0 = some (lo, c) := by
  rw [CPU.read_data]
  norm_num [h1]
  rw [CPU.read_data]
  norm_num

/-- Row `0x69` of the opcode table is ADC immediate (2 bytes). -/
lemma Instructions_get_0x69 :
    Instructions.get? 0x69 = some ⟨.ADC, .IMMEDIATE, 2, 2, 0⟩ := by decide

/-- `Int.xor` of two natural casts is the cast of `Nat.xor`. -/
lemma int_xor_coe (m n : Nat) : Int.xor (m : Int) (n : Int) = ((m ^^^ n : Nat) : Int) := rfl

/-- `Int.lnot` of a natural cast is the corresponding negative integer. -/
lemma int_lnot_coe (m : Nat) : Int.lnot (m : Int) = Int.negSucc m := rfl

/-- `Int.land` with a complemented natural on the left is `Nat.ldiff`. -/
lemma int_land_negSucc_coe (m n : Nat) :
    Int.land (Int.negSucc m) (n : Int) = ((Nat.ldiff n m : Nat) : Int) := rfl

/-- `Int.land` of two natural casts is the cast of `Nat.land`. -/
lemma int_land_coe (m n : Nat) : Int.land (m : Int) (n : Int) = ((m &&& n : Nat) : Int) := rfl

/-- A natural cast compared with 0 by `Int` boolean inequality. -/
lemma int_bne_zero (n : Nat) : ((n : Int) != 0) = decide (n ≠ 0) := by
  cases h : decide (n ≠ 0) <;> simp_all [bne]

/-- A nonzero test of `x &&& 0x80` is the bit-7 test. -/
lemma and_0x80_ne_zero (x : Nat) : decide (x &&& 0x80 ≠ 0) = x.testBit 7 := by
  have h : (0x80 : Nat) = 2 ^ 7 := by norm_num
  rw [h, Nat.and_two_pow]
  cases hb : x.testBit 7 <;> simp [hb]

/-- The signed-overflow expression computed by the ADC branch equals the
spec-side sign-bit characterisation. -/
lemma adc_V_char (A src cN : Nat) :
    (Int.land (Int.land (Int.lnot (Int.xor (A : Int) (src : Int)))
              (Int.xor (A : Int) ((src : Int) + (A : Int) + (cN : Int)))) 0x80 != 0) =
    decide ((A.testBit 7 = src.testBit 7) ∧
            A.testBit 7 ≠ ((A + src + cN) % 0x100).testBit 7) := by
  have hsum : ((src : Int) + (A : Int) + (cN : Int)) = ((src + A + cN : Nat) : Int) := by
    push_cast
    ring
  have h128 : (0x80 : Int) = ((0x80 : Nat) : Int) := rfl
  rw [hsum, int_xor_coe, int_xor_coe, int_lnot_coe, int_land_negSucc_coe, h128, int_land_coe,
      int_bne_zero, and_0x80_ne_zero]
  have hmod : ((A + src + cN) % 0x100).testBit 7 = (src + A + cN).testBit 7 := by
    have h256 : (0x100 : Nat) = 2 ^ 8 := by norm_num
    have hcomm : A + src + cN = src + A + cN := by omega
    rw [hcomm, h256, Nat.testBit_mod_two_pow]
    simp
  rw [hmod, Nat.testBit_ldiff, Nat.testBit_xor, Nat.testBit_xor]
  cases hA7 : A.testBit 7 <;> cases hs7 : src.testBit 7 <;>
    cases hm7 : (src + A + cN).testBit 7 <;> simp [hA7, hs7, hm7]

/-- The carry expression computed by the ADC branch equals the unsigned 9-bit
overflow test. -/
lemma adc_C_char (A src cN : Nat) :
    (decide ((src : Int) + (A : Int) + (cN : Int) > 0xFF)) =
    decide (0xFF < A + src + cN) := by
  rw [decide_eq_decide]
  push_cast
  omega

/-- The `setZN` negative flag of a natural value is its bit-7 test. -/
lemma setZN_N_char (x : Nat) :
    ((Int.land (x : Int) 0x80 != 0) || decide ((x : Int) < 0)) = x.testBit 7 := by
  have h128 : (0x80 : Int) = ((0x80 : Nat) : Int) := rfl
  rw [h128, int_land_coe, int_bne_zero, and_0x80_ne_zero]
  simp

/-- The `setZN` zero flag of a natural value is the zero test. -/
lemma setZN_Z_char (x : Nat) : (((x : Int)) == 0) = decide (x = 0) := by
  cases h : decide (x = 0) <;> simp_all

/-- C4: executing `ADC #src` from any state whose next two RAM bytes are
`0x69 src` masks the accumulator to 8 bits, sets Carry exactly when the
unsigned 9-bit sum exceeds `0xFF`, sets Overflow exactly when the two operands
share a sign bit that differs from the result's sign bit, and sets Zero /
Negative from the 8-bit result. -/
theorem C4_adc_flags (c : CPU) (src : Nat)
    (hstall : c.stall = 0) (hPC : c.PC + 1 < 0x800)
    (hop : c.ram c.PC = 0x69) (hoper : c.ram (c.PC + 1) = src) :
    ∃ s', c.step = some s' ∧
      s'.A = (c.A + src + boolNat c.C) % 0x100 ∧
      s'.C = decide (0xFF < c.A + src + boolNat c.C) ∧
      s'.V = decide ((c.A.testBit 7 = src.testBit 7) ∧
                     c.A.testBit 7 ≠ (((c.A + src + boolNat c.C) % 0x100).testBit 7)) ∧
      s'.Z = decide ((c.A + src + boolNat c.C) % 0x100 = 0) ∧
      s'.N = ((c.A + src + boolNat c.C) % 0x100).testBit 7 := by
  have hmod0 : c.PC % 0x800 = c.PC := by omega
  have hmod1 : (c.PC + 1) % 0x800 = c.PC + 1 := by omega
  have hf0 : c.read_memory c.PC .ABSOLUTE = (some 0x69, c) := by
    rw [read_memory_ram _ _ (by omega)]
    rw [hmod0, hop]
  have hf1 : ({ c with page_crossed := false } : CPU).read_memory (c.PC + 1) .ABSOLUTE =
      (some src, { c with page_crossed := false }) := by
    rw [read_memory_ram _ _ (by omega)]
    simp [hmod1, hoper]
  have hrun : c.step = some { c with
      A := (c.A + src + boolNat c.C) % 256,
      PC := c.PC + 2,
      C := decide ((255 : Int) < ↑src + ↑c.A + ↑(boolNat c.C)),
      Z := (((↑c.A + ↑src + ↑(boolNat c.C) : Int) % 256) == 0),
      V := (Int.land (Int.land (Int.lnot (Int.xor ↑c.A ↑src))
              (Int.xor ↑c.A (↑src + ↑c.A + ↑(boolNat c.C)))) 128 != 0),
      N := ((Int.land ((↑c.A + ↑src + ↑(boolNat c.C) : Int) % 256) 128 != 0) ||
            decide ((↑c.A + ↑src + ↑(boolNat c.C) : Int) % 256 < 0)),
      page_crossed := false,
      cpu_ticks := c.cpu_ticks + 2 } := by
    unfold CPU.step
    rw [if_neg (by simp [hstall])]
    rw [hf0]
    simp only [Instructions_get_0x69]
    rw [read_data_two _ src hf1]
    norm_num [CPU.execute, CPU.read_memory, CPU.setZN]
  refine ⟨_, hrun, rfl, ?_, ?_, ?_, ?_⟩
  · exact adc_C_char c.A src (boolNat c.C)
  · exact adc_V_char c.A src (boolNat c.C)
  · show (((↑c.A + ↑src + ↑(boolNat c.C) : Int) % 256) == 0) = _
    have h : ((c.A : Int) + ↑src + ↑(boolNat c.C)) % 256 =
        (((c.A + src + boolNat c.C) % 256 : Nat) : Int) := by omega
    rw [h, setZN_Z_char]
  · show ((Int.land ((↑c.A + ↑src + ↑(boolNat c.C) : Int) % 256) 128 != 0) ||
          decide ((↑c.A + ↑src + ↑(boolNat c.C) : Int) % 256 < 0)) = _
    have h : ((c.A : Int) + ↑src + ↑(boolNat c.C)) % 256 =
        (((c.A + src + boolNat c.C) % 256 : Nat) : Int) := by omega
    rw [h, setZN_N_char]

/-- RAM image of the test program `ADC #$50` at address 0. -/
def ramADC : Nat → Nat := fun a =>
  if a = 0 then 0x69
  else if a = 1 then 0x50
  else 0

/-- CPU about to execute `ADC #$50` with `A = 0x50` and carry clear. -/
def cpuADC50 : CPU := { baseCPU romW with A := 0x50, ram := ramADC }

/-- Witness for C4: `0x50 + 0x50` with carry clear gives `A = 0xA0`,
Overflow set, Carry clear, Negative set, Zero clear. -/
theorem C4_adc_flags_witness :
    ∃ s', cpuADC50.step = some s' ∧ s'.A = 0xA0 ∧ s'.C = false ∧ s'.V = true ∧
      s'.Z = false ∧ s'.N = true := by
  obtain ⟨s', h1, hA, hC, hV, hZ, hN⟩ :=
    C4_adc_flags cpuADC50 0x50 rfl (by decide) (by decide) (by decide)
  exact ⟨s', h1, hA.trans (by decide), hC.trans (by decide), hV.trans (by decide),
         hZ.trans (by decide), hN.trans (by decide)⟩

/-! ## Claim C5 -/

/-- The byte the bus returns for a side-effect-free source address: mirrored
main RAM below `0x2000`, cartridge PRG-RAM in `0x6000..0x7FFF`. -/
def byteAt (c : CPU) (a : Nat) : Nat :=
  if a < 0x2000 then c.ram (a % 0x800) else c.rom.prg_ram (a % PRG_RAM_SIZE)

/-- Reads from RAM or PRG-RAM succeed, return `byteAt`, and do not change the
machine state. -/
lemma read_memory_pure (c : CPU) (a : Nat)
    (ha : a < 0x2000 ∨ (0x6000 ≤ a ∧ a < 0x8000)) :
    c.read_memory a .ABSOLUTE = (some (byteAt c a), c) := by
  rcases ha with ha | ha
  · rw [read_memory_ram _ _ ha]
    simp [byteAt, ha]
  · rw [read_memory_cart _ _ (by omega)]
    have h1 : ¬ (a < 0x2000) := by omega
    simp [ROM.read_mapper0, byteAt, h1, ha.1, ha.2]

/-- The DMA copy loop over a side-effect-free source region succeeds and fills
OAM indices `i ≤ j < i + n` with the source bytes, leaving everything else
unchanged. -/
lemma dma_copy_spec (v : Nat) (hv : v < 0x20 ∨ (0x60 ≤ v ∧ v < 0x80)) :
    ∀ (n i : Nat) (c : CPU), i + n ≤ 256 →
    dma_copy (v * 0x100) i n c = some { c with ppu := { c.ppu with
      spr := fun j => if i ≤ j ∧ j < i + n then byteAt c (v * 0x100 + j)
                      else c.ppu.spr j } } := by
  intro n
  induction n with
  | zero =>
    intro i c h
    have hf : (fun j => if i ≤ j ∧ j < i + 0 then byteAt c (v * 0x100 + j)
               else c.ppu.spr j) = c.ppu.spr := by
      funext j
      rw [if_neg (by omega)]
    rw [hf]
    rfl
  | succ n ih =>
    intro i c h
    have haddr : v * 0x100 + i < 0x2000 ∨
        (0x6000 ≤ v * 0x100 + i ∧ v * 0x100 + i < 0x8000) := by
      rcases hv with hv | hv
      · left
        have : i < 256 := by omega
        calc v * 0x100 + i ≤ 0x1F * 0x100 + 255 := by
              have : v ≤ 0x1F := by omega
              exact Nat.add_le_add (Nat.mul_le_mul_right _ this) (by omega)
        _ < 0x2000 := by norm_num
      · right
        constructor
        · calc (0x6000 : Nat) = 0x60 * 0x100 + 0 := by norm_num
          _ ≤ v * 0x100 + i := Nat.add_le_add (Nat.mul_le_mul_right _ hv.1) (by omega)
        · have : i < 256 := by omega
          calc v * 0x100 + i ≤ 0x7F * 0x100 + 255 := by
                have : v ≤ 0x7F := by omega
                exact Nat.add_le_add (Nat.mul_le_mul_right _ this) (by omega)
          _ < 0x8000 := by norm_num
    show dma_copy (v * 0x100) i (n + 1) c = _
    unfold dma_copy
    rw [read_memory_pure c (v * 0x100 + i) haddr]
    dsimp only
    rw [ih (i + 1) _ (by omega)]
    have hbyte : ∀ j, byteAt { c with ppu := { c.ppu with
        spr := updFn c.ppu.spr i (byteAt c (v * 0x100 + i)) } } (v * 0x100 + j) =
        byteAt c (v * 0x100 + j) := by
      intro j
      simp [byteAt]
    have hf : (fun j => if i + 1 ≤ j ∧ j < i + 1 + n then
          byteAt { c with ppu := { c.ppu with
            spr := updFn c.ppu.spr i (byteAt c (v * 0x100 + i)) } } (v * 0x100 + j)
          else updFn c.ppu.spr i (byteAt c (v * 0x100 + i)) j) =
        (fun j => if i ≤ j ∧ j < i + (n + 1) then byteAt c (v * 0x100 + j)
                  else c.ppu.spr j) := by
      funext j
      rw [hbyte]
      unfold updFn
      rcases Nat.lt_trichotomy j i with hj | hj | hj
      · rw [if_neg (by omega), if_neg (by omega), if_neg (by omega)]
      · subst hj
        rw [if_neg (by omega), if_pos rfl, if_pos (by omega)]
      · rcases Nat.lt_or_ge j (i + 1 + n) with hj2 | hj2
        · rw [if_pos (by omega), if_pos (by omega)]
        · rw [if_neg (by omega), if_neg (by omega), if_neg (by omega)]
    rw [hf]

/-- C5 (amended): writing page `v` to the OAM-DMA port `0x4014` with a source
page in main RAM (`v < 0x20`) or cartridge PRG-RAM (`0x60 ≤ v < 0x80`) copies
the 256 bytes starting at CPU address `v * 0x100` into the PPU's OAM and sets
the stall counter to 512, changing no register, flag, or RAM byte; and while
the stall counter is positive, `step()` only decrements it by one (and counts
one tick), executing no instruction.  (Source pages that hit the PPU register
window crash the copy instead — see the counterexample.) -/
theorem C5_oam_dma_stall :
    (∀ (c : CPU) (v : Nat), (v < 0x20 ∨ (0x60 ≤ v ∧ v < 0x80)) →
      ∃ c', c.write_memory 0x4014 .ABSOLUTE v = some c' ∧
        c'.stall = 512 ∧
        (∀ j, j < 256 → (c.read_memory (v * 0x100 + j) .ABSOLUTE).1 = some (c'.ppu.spr j)) ∧
        (∀ j, 256 ≤ j → c'.ppu.spr j = c.ppu.spr j) ∧
        c'.A = c.A ∧ c'.X = c.X ∧ c'.Y = c.Y ∧ c'.SP = c.SP ∧ c'.PC = c.PC ∧
        c'.ram = c.ram ∧ c'.C = c.C ∧ c'.Z = c.Z ∧ c'.I = c.I ∧ c'.D = c.D ∧
        c'.B = c.B ∧ c'.V = c.V ∧ c'.N = c.N) ∧
    (∀ s : CPU, 0 < s.stall →
      s.step = some { s with stall := s.stall - 1, cpu_ticks := s.cpu_ticks + 1 }) := by
  constructor
  · intro c v hv
    have hw : c.write_memory 0x4014 .ABSOLUTE v = some { c with
        ppu := { c.ppu with spr := fun j => if 0 ≤ j ∧ j < 0 + 256 then byteAt c (v * 0x100 + j) else c.ppu.spr j },
        stall := 512 } := by
      unfold CPU.write_memory
      rw [if_neg (by simp)]
      show (if (0x4014 : Nat) < 0x2000 then _ else _) = _
      rw [if_neg (by norm_num), if_neg (by norm_num), if_pos rfl]
      unfold SPR_RAM_SIZE
      dsimp only
      rw [dma_copy_spec v hv 256 0 c (by omega)]
    refine ⟨_, hw, rfl, ?_, ?_, rfl, rfl, rfl, rfl, rfl, rfl, rfl, rfl, rfl, rfl,
            rfl, rfl, rfl⟩
    · intro j hj
      have haddr : v * 0x100 + j < 0x2000 ∨
          (0x6000 ≤ v * 0x100 + j ∧ v * 0x100 + j < 0x8000) := by
        rcases hv with hv | hv
        · left
          calc v * 0x100 + j ≤ 0x1F * 0x100 + 255 :=
                Nat.add_le_add (Nat.mul_le_mul_right _ (by omega)) (by omega)
          _ < 0x2000 := by norm_num
        · right
          refine ⟨?_, ?_⟩
          · calc (0x6000 : Nat) = 0x60 * 0x100 + 0 := by norm_num
            _ ≤ v * 0x100 + j := Nat.add_le_add (Nat.mul_le_mul_right _ hv.1) (by omega)
          · calc v * 0x100 + j ≤ 0x7F * 0x100 + 255 :=
                  Nat.add_le_add (Nat.mul_le_mul_right _ (by omega)) (by omega)
            _ < 0x8000 := by norm_num
      rw [read_memory_pure c _ haddr]
      simp [hj]
    · intro j hj
      simp [(by omega : ¬ (0 ≤ j ∧ j < 0 + 256))]
      intro h2
      omega
  · intro s hs
    unfold CPU.step
    rw [if_pos hs]

/-- Counterexample to C5 as stated: source page `0x20` maps into the PPU
register window; the very first DMA read hits unhandled register `0x2000`,
returns Python `None`, and the copy crashes (`none`) — no stall, no copy. -/
theorem C5_counterexample :
    (baseCPU romW).write_memory 0x4014 .ABSOLUTE 0x20 = none := by
  rfl

/-- Witness for the amended C5: a DMA from RAM page 2 on a concrete machine. -/
theorem C5_oam_dma_stall_witness :
    ∃ c', (baseCPU romW).write_memory 0x4014 .ABSOLUTE 2 = some c' ∧ c'.stall = 512 := by
  obtain ⟨c', hw, hs, -⟩ := C5_oam_dma_stall.1 (baseCPU romW) 2 (by omega)
  exact ⟨c', hw, hs⟩

/-! ## Claim C2 -/

/-- A single-bank cartridge filled with NOP (`0xEA`) opcodes. -/
def romC2 : ROM := { romW with prg_rom := List.replicate 0x4000 0xEA }

/-- A CPU about to execute the NOP at the very top of the address space. -/
def cpuC2 : CPU := { baseCPU romC2 with PC := 0xFFFF }

/-- Row `0xEA` of the opcode table is NOP (implied, 1 byte). -/
lemma Instructions_get_0xEA :
    Instructions.get? 0xEA = some ⟨.NOP, .IMPLIED, 1, 2, 0⟩ := by decide

lemma romC2_top : romC2.read_mapper0 0xFFFF = some 0xEA := by
  have h : (0xFFFF - 0x8000) % PRG_ROM_BASE_UNIT_SIZE = 0x3FFF := by
    unfold PRG_ROM_BASE_UNIT_SIZE
    norm_num
  simp only [ROM.read_mapper0, romC2, romW, h]
  norm_num [List.get?_eq_getElem?, List.getElem?_replicate]

/-- Stepping the NOP at `0xFFFF` leaves the program counter at `0x10000`:
`self.PC += instruction.length` is not masked to 16 bits. -/
lemma cpuC2_run : cpuC2.step = some { cpuC2 with
    page_crossed := false, PC := 0x10000, cpu_ticks := cpuC2.cpu_ticks + 2 } := by
  unfold CPU.step
  rw [if_neg (by simp [cpuC2, baseCPU])]
  rw [read_memory_cart _ _ (by simp [cpuC2, baseCPU])]
  have hrom : cpuC2.rom.read_mapper0 cpuC2.PC = some 0xEA := romC2_top
  rw [hrom]
  simp only [Instructions_get_0xEA]
  rw [read_data_one]
  norm_num [CPU.execute]
  simp [cpuC2, baseCPU]

/-- Counterexample to C2 as stated: after stepping the 1-byte NOP at
`PC = 0xFFFF`, the program counter is `0x10000`, outside `0..0xFFFF` — the PC
is not masked to 16 bits after a step. -/
theorem C2_counterexample :
    ∃ c', cpuC2.step = some c' ∧ c'.PC = 0x10000 ∧ 0xFFFF < c'.PC := by
  refine ⟨_, cpuC2_run, rfl, by norm_num⟩

/-- Or-combining a shifted byte with a byte stays within 16 bits. -/
lemma or16 (x y : Nat) (hx : x ≤ 0xFF) (hy : y ≤ 0xFF) : (x <<< 8) ||| y ≤ 0xFFFF := by
  have h1 : x <<< 8 < 2 ^ 16 := by
    rw [Nat.shiftLeft_eq]
    have : (2 : Nat) ^ 16 = 65536 := by norm_num
    omega
  have h2 : y < 2 ^ 16 := by
    have : (2 : Nat) ^ 16 = 65536 := by norm_num
    omega
  have := Nat.or_lt_two_pow h1 h2
  have h3 : (2 : Nat) ^ 16 = 65536 := by norm_num
  omega

/-- C2 (amended): every computed effective address is in `0..0xFFFF` (given
byte-valued RAM and a 16-bit operand), and every arithmetic register update in
the executor keeps its destination in `0..0xFF` (add/subtract with carry,
increments/decrements, the accumulator shifts/rotates ASL/LSR/ROL/ROR — LSR's
right shift carries no mask of its own, so its clause assumes a byte-valued
input accumulator — and the stack-pointer updates of push/pop) — but the
program counter is **not** masked after a step: stepping the NOP at `0xFFFF`
drives PC to `0x10000`. -/
theorem C2_masking_invariants :
    (∀ (c : CPU) (data : Nat) (mode : MemMode), (∀ a, c.ram a ≤ 0xFF) →
      data ≤ 0xFFFF → (c.address_for_mode data mode).1 ≤ 0xFFFF) ∧
    (∀ (c : CPU) (instr : Instruction) (data : Nat) (c' : CPU) (j : Bool),
      instr.type = .ADC → c.execute instr data = some (c', j) → c'.A ≤ 0xFF) ∧
    (∀ (c : CPU) (instr : Instruction) (data : Nat) (c' : CPU) (j : Bool),
      instr.type = .SBC → c.execute instr data = some (c', j) → c'.A ≤ 0xFF) ∧
    (∀ (c : CPU) (instr : Instruction) (data : Nat) (c' : CPU) (j : Bool),
      instr.type = .INX ∨ instr.type = .DEX →
      c.execute instr data = some (c', j) → c'.X ≤ 0xFF) ∧
    (∀ (c : CPU) (instr : Instruction) (data : Nat) (c' : CPU) (j : Bool),
      instr.type = .INY ∨ instr.type = .DEY →
      c.execute instr data = some (c', j) → c'.Y ≤ 0xFF) ∧
    (∀ (c : CPU) (instr : Instruction) (data : Nat) (c' : CPU) (j : Bool),
      instr.type = .ASL ∨ instr.type = .ROL ∨ instr.type = .ROR →
      instr.mode = .ACCUMULATOR →
      c.execute instr data = some (c', j) → c'.A ≤ 0xFF) ∧
    (∀ (c : CPU) (instr : Instruction) (data : Nat) (c' : CPU) (j : Bool),
      instr.type = .LSR → instr.mode = .ACCUMULATOR → c.A ≤ 0xFF →
      c.execute instr data = some (c', j) → c'.A ≤ 0xFF) ∧
    (∀ (c : CPU) (v : Nat), (c.stack_push v).SP ≤ 0xFF) ∧
    (∀ c : CPU, (c.stack_pop).2.SP ≤ 0xFF) ∧
    (∃ c', cpuC2.step = some c' ∧ 0xFFFF < c'.PC) := by
  refine ⟨?_, ?_, ?_, ?_, ?_, ?_, ?_, ?_, ?_, ⟨_, cpuC2_run, by norm_num⟩⟩
  · intro c data mode hram hdata
    cases mode <;> simp [CPU.address_for_mode]
    · omega
    · omega
    · omega
    · exact or16 _ _ (hram _) (hram _)
    · split <;> exact or16 _ _ (hram _) (hram _)
    · omega
    · split
      · omega
      · omega
    · omega
    · omega
    · omega
  · intro c instr data c' j ht hex
    rcases hread : c.read_memory data instr.mode with ⟨ov, c₂⟩
    cases ov with
    | none => simp [CPU.execute, ht, hread] at hex
    | some v =>
      simp [CPU.execute, ht, hread, CPU.setZN] at hex
      rcases hex with ⟨hc', _⟩
      subst hc'
      simp
      omega
  · intro c instr data c' j ht hex
    rcases hread : c.read_memory data instr.mode with ⟨ov, c₂⟩
    cases ov with
    | none => simp [CPU.execute, ht, hread] at hex
    | some v =>
      simp [CPU.execute, ht, hread, CPU.setZN] at hex
      rcases hex with ⟨hc', _⟩
      subst hc'
      simp
      omega
  · intro c instr data c' j ht hex
    rcases ht with ht | ht <;>
      · simp [CPU.execute, ht, CPU.setZN] at hex
        rcases hex with ⟨hc', _⟩
        subst hc'
        simp
        omega
  · intro c instr data c' j ht hex
    rcases ht with ht | ht <;>
      · simp [CPU.execute, ht, CPU.setZN] at hex
        rcases hex with ⟨hc', _⟩
        subst hc'
        simp
        omega
  · intro c instr data c' j ht hmode hex
    rcases ht with ht | ht | ht <;>
      · simp [CPU.execute, ht, hmode, CPU.setZN] at hex
        rcases hex with ⟨hc', _⟩
        subst hc'
        simp
        omega
  · intro c instr data c' j ht hmode hA hex
    simp [CPU.execute, ht, hmode, CPU.setZN] at hex
    rcases hex with ⟨hc', _⟩
    subst hc'
    simp [Nat.shiftRight_eq_div_pow]
    omega
  · intro c v
    simp [CPU.stack_push]
    omega
  · intro c
    simp [CPU.stack_pop]
    omega

/-- Witness for the amended C2 at concrete inputs: an indexed absolute address
stays 16-bit, concrete ADC and accumulator-LSR executions keep the accumulator
8-bit, and push/pop keep SP 8-bit. -/
theorem C2_masking_invariants_witness :
    ((baseCPU romW).address_for_mode 0xFFFF MemMode.ABSOLUTE_X).1 ≤ 0xFFFF ∧
    (∃ p : CPU × Bool, ({ baseCPU romW with A := 0x50 } : CPU).execute
        ⟨.ADC, .IMMEDIATE, 2, 2, 0⟩ 0x50 = some p ∧ p.1.A ≤ 0xFF) ∧
    (0x51 ≤ 0xFF ∧ ∃ p : CPU × Bool, ({ baseCPU romW with A := 0x51 } : CPU).execute
        ⟨.LSR, .ACCUMULATOR, 1, 2, 0⟩ 0 = some p ∧ p.1.A ≤ 0xFF) ∧
    ((baseCPU romW).stack_push 0x12).SP ≤ 0xFF ∧
    ((baseCPU romW).stack_pop).2.SP ≤ 0xFF := by
  refine ⟨?_, ?_, ?_, ?_, ?_⟩
  · exact C2_masking_invariants.1 (baseCPU romW) 0xFFFF .ABSOLUTE_X
      (fun a => by simp [baseCPU]) (by norm_num)
  · obtain ⟨p, hp⟩ : ∃ p, ({ baseCPU romW with A := 0x50 } : CPU).execute
        ⟨.ADC, .IMMEDIATE, 2, 2, 0⟩ 0x50 = some p := by
      cases hE : ({ baseCPU romW with A := 0x50 } : CPU).execute
          ⟨.ADC, .IMMEDIATE, 2, 2, 0⟩ 0x50 with
      | none => exact absurd hE (by simp [CPU.execute, CPU.read_memory])
      | some p => exact ⟨p, rfl⟩
    exact ⟨p, hp, C2_masking_invariants.2.1 _ _ _ p.1 p.2 rfl (by rw [hp])⟩
  · obtain ⟨p, hp⟩ : ∃ p, ({ baseCPU romW with A := 0x51 } : CPU).execute
        ⟨.LSR, .ACCUMULATOR, 1, 2, 0⟩ 0 = some p := by
      cases hE : ({ baseCPU romW with A := 0x51 } : CPU).execute
          ⟨.LSR, .ACCUMULATOR, 1, 2, 0⟩ 0 with
      | none => exact absurd hE (by simp [CPU.execute])
      | some p => exact ⟨p, rfl⟩
    exact ⟨by norm_num, p, hp, C2_masking_invariants.2.2.2.2.2.2.1
      ({ baseCPU romW with A := 0x51 }) ⟨.LSR, .ACCUMULATOR, 1, 2, 0⟩ 0 p.1 p.2
      rfl rfl (by norm_num [baseCPU]) (by rw [hp])⟩
  · exact C2_masking_invariants.2.2.2.2.2.2.2.1 (baseCPU romW) 0x12
  · exact C2_masking_invariants.2.2.2.2.2.2.2.2.1 (baseCPU romW)
